import Mathlib

/-!
# Inpainting driver (`inpainting_run_graph_main.cc`)

A shallow embedding of `RunMPPGraph` and `main` from
`mediapipe/examples/desktop/inpainting/inpainting_run_graph_main.cc`.

* 8-bit channels are natural numbers below 256; a pixel of a `CV_8UC3` buffer is a `Vec3b`.
* A `cv::Mat` is its size together with a total pixel function `data y x`.
* The graph engine, the capture device, the video writer and the key poll are an
  environment (`Env`) of answers, one per call; the driver is a function of it that
  logs every external call it makes in a trace of `Event`s.
* The frame loop can run forever (a camera that only yields empty frames, a window
  in which no key is pressed), so it takes fuel and returns `none` when it runs out.
-/

namespace Inpainting

/-! ## Pixels and buffers -/

/-- One pixel of a three-channel 8-bit buffer (`cv::Vec3b`). -/
structure Vec3b where
  c0 : Nat
  c1 : Nat
  c2 : Nat
  deriving DecidableEq, Repr

/-- The value `cv::Scalar(255, 255, 255)` as a three-channel 8-bit pixel. -/
def white : Vec3b := ⟨255, 255, 255⟩

/-- The all-zero pixel. -/
def black : Vec3b := ⟨0, 0, 0⟩

/-- Apply a channel operation to the three channels of a pixel. -/
def Vec3b.map (f : Nat → Nat) (p : Vec3b) : Vec3b := ⟨f p.c0, f p.c1, f p.c2⟩

/-- Apply a binary channel operation channel by channel. -/
def Vec3b.zipWith (f : Nat → Nat → Nat) (p q : Vec3b) : Vec3b :=
  ⟨f p.c0 q.c0, f p.c1 q.c1, f p.c2 q.c2⟩

/-- A `cv::Mat`: `rows`, `cols` and the element at row `y`, column `x`. -/
structure Mat (α : Type) where
  rows : Nat
  cols : Nat
  data : Nat → Nat → α

/-- The test `cv::Mat::empty()`: no elements. -/
def Mat.empty {α : Type} (m : Mat α) : Bool := m.rows == 0 || m.cols == 0

/-- An element-wise unary operation, the result has the size of the operand. -/
def Mat.map {α β : Type} (f : α → β) (m : Mat α) : Mat β :=
  ⟨m.rows, m.cols, fun y x => f (m.data y x)⟩

/-- An element-wise binary operation on two buffers of one size. -/
def Mat.zipWith {α β γ : Type} (f : α → β → γ) (a : Mat α) (b : Mat β) : Mat γ :=
  ⟨a.rows, a.cols, fun y x => f (a.data y x) (b.data y x)⟩

/-! ## The OpenCV element operations used by the driver

The bodies of the OpenCV calls are not part of the repository; each is modelled from
what the specification says the call does (§4.3), with the library's rounding and
saturation rules made explicit. -/

/-- Modelled from the spec: `cv::saturate_cast<uchar>` of an integer, the clamp to
`0..255` behind every "saturating" 8-bit operation of §4.3 (OpenCV, not under src/). -/
def saturate_cast_uchar (v : Int) : Nat :=
  if v < 0 then 0 else if 255 < v then 255 else v.toNat

/-- Modelled from the spec: `cvRound`, the conversion "to integer" of §4.3 step 2
(OpenCV, not under src/): the nearest integer, a tie going to the even neighbour. -/
def cvRound (x : ℚ) : Int :=
  if x - ⌊x⌋ < 1 / 2 then ⌊x⌋
  else if 1 / 2 < x - ⌊x⌋ then ⌊x⌋ + 1
  else if ⌊x⌋ % 2 = 0 then ⌊x⌋ else ⌊x⌋ + 1

/-- Modelled from the spec: one element of `Mat::convertTo(dst, CV_8U, alpha)` on a
floating-point buffer, "multiply by 255, convert to integer" (OpenCV, not under src/).
The element is an exact rational; the product is rounded and saturated. -/
def convertTo_8U (alpha : ℚ) (p : ℚ) : Nat := saturate_cast_uchar (cvRound (p * alpha))

/-- Modelled from the spec: one element of `cv::cvtColor(_, _, CV_GRAY2RGB)`,
"broadcast to three channels" (OpenCV, not under src/). -/
def gray2rgb (i : Nat) : Vec3b := ⟨i, i, i⟩

/-- Modelled from the spec: one channel of `cv::threshold(_, _, thresh, maxval,
CV_THRESH_BINARY)`, "values above 192 become 255, else 0" (OpenCV, not under src/). -/
def threshold_binary (thresh maxval : Nat) (v : Nat) : Nat := if thresh < v then maxval else 0

/-- Modelled from the spec: one channel of `cv::bitwise_and`, "per-pixel bitwise AND"
(OpenCV, not under src/). -/
def bitwise_and (a b : Nat) : Nat := a &&& b

/-- Modelled from the spec: one channel of `cv::bitwise_not` on 8 bits, the
"inversion" of §4.3 step 1 (OpenCV, not under src/). -/
def bitwise_not (a : Nat) : Nat := 255 - a % 256

/-- Modelled from the spec: one channel of `cv::subtract` on 8-bit buffers,
"per-pixel saturating subtraction" (OpenCV, not under src/). -/
def subtract (a b : Nat) : Nat := saturate_cast_uchar ((a : Int) - (b : Int))

/-- Modelled from the spec: one channel of `cv::add` on 8-bit buffers, "per-pixel
saturating addition" (OpenCV, not under src/). -/
def add (a b : Nat) : Nat := saturate_cast_uchar ((a : Int) + (b : Int))

/-- Modelled from the spec: one pixel of `cv::cvtColor` with `COLOR_BGR2RGB` or
`COLOR_RGB2BGR`: the first and third channel change places (OpenCV, not under src/). -/
def swapRB (p : Vec3b) : Vec3b := ⟨p.c2, p.c1, p.c0⟩

/-- Modelled from the spec: `cv::flip(_, _, 1)`, the horizontal mirror of camera frames
of §4.1 (OpenCV, not under src/). -/
def flipHorizontal {α : Type} (m : Mat α) : Mat α :=
  ⟨m.rows, m.cols, fun y x => m.data y (m.cols - 1 - x)⟩

/-! ## Selfie mask, inpainting mask and overlay (source lines 192-205) -/

/-- The 8-bit intensity of one selfie-mask element: line 195,
`output_selfie_mask_mat.convertTo(output_selfie_mask_mat, CV_8U, 255)`. -/
def selfieIntensity (p : ℚ) : Nat := convertTo_8U 255 p

/-- One pixel of the prepared selfie mask: lines 195-197, `convertTo(.., CV_8U, 255)`,
`cvtColor(.., CV_GRAY2RGB)`, `threshold(.., 192, 255, CV_THRESH_BINARY)`. -/
def prepareSelfiePixel (p : ℚ) : Vec3b :=
  (gray2rgb (selfieIntensity p)).map (threshold_binary 192 255)

/-- One channel of the inpainting mask: lines 201-202, `bitwise_and(selfie, corpus,
inpainting_mask)` then `subtract(inpainting_mask, face, inpainting_mask)`. -/
def inpaintingChannel (s c f : Nat) : Nat := subtract (bitwise_and s c) f

/-- One channel of the overlay: line 205, `cv::add(output_video_mat, inpainting_mask,
output_video_mat)`. -/
def overlayChannel (v m : Nat) : Nat := add v m

/-! ## Face mask (source lines 186-190) -/

/-- A pixel position `(x, y)`, as in `cv::Point(x, y)`. -/
abbrev Point := Nat × Nat

/-- The pixel of a buffer at a position. -/
def Mat.pixel {α : Type} (m : Mat α) (p : Point) : α := m.data p.2 p.1

/-- The positions of a buffer: `x < cols`, `y < rows`. -/
def Mat.points {α : Type} (m : Mat α) : Finset Point :=
  Finset.range m.cols ×ˢ Finset.range m.rows

/-- Two positions are 4-connected neighbours: one step left, right, up or down. -/
def adjacent4 (p q : Point) : Prop :=
  (p.2 = q.2 ∧ (p.1 + 1 = q.1 ∨ q.1 + 1 = p.1)) ∨
  (p.1 = q.1 ∧ (p.2 + 1 = q.2 ∨ q.2 + 1 = p.2))

instance adjacent4_decidable (p q : Point) : Decidable (adjacent4 p q) := by
  unfold adjacent4
  exact inferInstance

/-- One round of the fill: the region grows by the positions of the buffer that hold
the seed's value `val0` and have a 4-connected neighbour in the region. -/
def floodGrow (m : Mat Vec3b) (val0 : Vec3b) (region : Finset Point) : Finset Point :=
  m.points.filter (fun q => q ∈ region ∨ (m.pixel q = val0 ∧ ∃ p ∈ region, adjacent4 p q))

/-- The region after a number of rounds of growth from the seed. -/
def floodRounds (m : Mat Vec3b) (seed : Point) : Nat → Finset Point
  | 0 => {seed}
  | k + 1 => floodGrow m (m.pixel seed) (floodRounds m seed k)

/-- The repainted domain of `cv::floodFill` with zero `loDiff` and `upDiff` and
connectivity 4: `rows * cols` rounds of growth from the seed, enough to exhaust the
buffer. -/
def floodRegion (m : Mat Vec3b) (seed : Point) : Finset Point :=
  floodRounds m seed (m.rows * m.cols)

/-- Modelled from the spec: `cv::floodFill(image, seedPoint, newVal)` with the default
`loDiff`, `upDiff` and flags, the "flood-fill from the top-left corner with white" of
§4.3 step 1 (OpenCV, not under src/). The connected component of the seed among the
pixels that hold the seed's value is repainted with `newVal`; a seed outside the image
is an error (`none`). -/
def floodFill (m : Mat Vec3b) (seed : Point) (newVal : Vec3b) : Option (Mat Vec3b) :=
  if seed.1 < m.cols ∧ seed.2 < m.rows then
    some ⟨m.rows, m.cols, fun y x => if (x, y) ∈ floodRegion m seed then newVal else m.data y x⟩
  else none

/-- The prepared face mask: lines 189-190, `cv::floodFill(output_face_mask_mat,
cv::Point(0, 0), cv::Scalar(255, 255, 255))` then `cv::bitwise_not`. -/
def prepareFaceMask (face : Mat Vec3b) : Option (Mat Vec3b) :=
  (floodFill face (0, 0) white).map (Mat.map (Vec3b.map bitwise_not))

/-- The flood-filled background region: the positions of the buffer reached from the
seed through 4-connected neighbours that hold the seed's value. -/
inductive Reached (m : Mat Vec3b) (seed : Point) : Point → Prop
  | seed : Reached m seed seed
  | step {p q : Point} : Reached m seed p → adjacent4 p q → q ∈ m.points →
      m.pixel q = m.pixel seed → Reached m seed q

/-- Every pixel of the buffer is all-0 or all-255. -/
def Mat.isBinary (m : Mat Vec3b) : Prop :=
  ∀ y x, y < m.rows → x < m.cols → m.data y x = black ∨ m.data y x = white

/-- A fully white buffer of 2 rows and 3 columns. -/
def whiteBuffer : Mat Vec3b := ⟨2, 3, fun _ _ => white⟩

/-- A buffer of 1 row and 2 columns: a black pixel at `(0, 0)`, a white pixel right of it. -/
def blackWhiteRow : Mat Vec3b := ⟨1, 2, fun _ x => if x = 0 then black else white⟩

/-- A buffer of 3 rows and 3 columns: a black pixel in the middle, a white ring around it
except for the black top-left corner. -/
def ringBuffer : Mat Vec3b :=
  ⟨3, 3, fun y x => if (y = 1 ∧ x = 1) ∨ (y = 0 ∧ x = 0) then black else white⟩

/-! ## The driver: environment, trace and control flow (source lines 71-259) -/

/-- An `absl::Status`: OK, or an error with its code. -/
inductive Status where
  | ok
  | error (code : Nat)
  deriving DecidableEq, Repr

/-- Modelled from the spec: the macro `RET_CHECK` (framework code, not under src/) makes
the function return a non-OK status when its condition is false (§6: failure if capture
opening returns an error); the status is `absl::InternalError`, whose code is 13. The
macros `MP_RETURN_IF_ERROR` and `ASSIGN_OR_RETURN` return the failing status as it is. -/
def kInternal : Nat := 13

/-- The four output streams, in the order the loop polls them:
`kOutputVideo`, `kOutputCorpusMask`, `kOutputFaceMask`, `kOutputSelfieMask`. -/
inductive Stream where
  | video
  | corpusMask
  | faceMask
  | selfieMask
  deriving DecidableEq, Repr

/-- The four packets the graph produces for one submitted frame. They hold pixels and
share their dimensions (the invariant of §3 of the specification). -/
structure Outputs where
  rows : Nat
  cols : Nat
  rows_pos : 0 < rows
  cols_pos : 0 < cols
  video : Nat → Nat → Vec3b
  corpus_mask : Nat → Nat → Vec3b
  face_mask : Nat → Nat → Vec3b
  selfie_mask : Nat → Nat → ℚ

/-- Everything outside the driver: the flags, and the answer of each external call.
The calls made inside the loop are indexed by the iteration (the number of captures
made before it); each is made at most once per iteration. -/
structure Env where
  /-- Flag `input_video_path` is not empty. -/
  load_video : Bool
  /-- Flag `output_video_path` is not empty. -/
  save_video : Bool
  /-- Status of `mediapipe::file::GetContents`. -/
  getContents : Status
  /-- Whether `ParseTextProtoOrDie` accepts the contents; it ends the process otherwise. -/
  parseConfig : Bool
  /-- Status of `graph.Initialize(config)`. -/
  graphInit : Status
  /-- Value of `capture.isOpened()` after `capture.open`. -/
  captureOpened : Bool
  /-- Status of `graph.AddOutputStreamPoller` for each stream. -/
  addPoller : Stream → Status
  /-- Status of `graph.StartRun`. -/
  startRun : Status
  /-- The frame read by `capture >> camera_frame_raw` in each iteration. -/
  capture : Nat → Mat Vec3b
  /-- The microsecond timestamp computed from the tick counter in each iteration. -/
  timestamp : Nat → Nat
  /-- Status of `graph.AddPacketToInputStream` in each iteration. -/
  addPacket : Nat → Status
  /-- Result of `poller.Next` on each stream in each iteration. -/
  next : Stream → Nat → Bool
  /-- The packets the pollers deliver in each iteration. -/
  outputs : Nat → Outputs
  /-- Value of `writer.isOpened()` after `writer.open`. -/
  writerOpened : Bool
  /-- Value of `cv::waitKey(5)` in each iteration. -/
  waitKey : Nat → Int
  /-- Status of `graph.CloseInputStream`. -/
  closeInputStream : Status
  /-- Status of `graph.WaitUntilDone`. -/
  waitUntilDone : Status

/-- An external call made by the driver, with what it was given and what it answered. -/
inductive Event where
  | getContents (s : Status)
  | parseConfig (accepted : Bool)
  | graphInit (s : Status)
  | captureOpen (fromFile : Bool) (opened : Bool)
  | namedWindow
  | addPoller (st : Stream) (s : Status)
  | startRun (s : Status)
  | captureRead (i : Nat) (isEmpty : Bool)
  | addPacket (frame : Mat Vec3b) (timestamp : Nat) (s : Status)
  | pollNext (st : Stream) (i : Nat) (got : Bool)
  | writerOpen (opened : Bool)
  | write (frame : Mat Vec3b)
  | imshow (frame : Mat Vec3b)
  | waitKey (key : Int)
  | writerRelease
  | closeInputStream (s : Status)
  | waitUntilDone (s : Status)

/-- How `RunMPPGraph` ends: it returns a status, or the process dies inside it
(`ParseTextProtoOrDie`, an OpenCV error). -/
inductive Exit where
  | returned (s : Status)
  | aborted
  deriving DecidableEq, Repr

/-- The variables of the frame loop: the number of captures made, `grab_frames`,
`frame_count`, `writer.isOpened()`, and the trace so far. -/
structure LoopState where
  iter : Nat
  grab_frames : Bool
  frame_count : Nat
  writer_open : Bool
  trace : List Event

/-- The state in which the loop is entered (lines 127-128, writer not yet opened). -/
def loopStart (trace : List Event) : LoopState :=
  { iter := 0, grab_frames := true, frame_count := 0, writer_open := false, trace := trace }

/-- How one run of the loop body ends. -/
inductive Flow where
  | next (s : LoopState)
  | brk (s : LoopState)
  | ret (e : Exit) (trace : List Event)

/-- The four retrievals of lines 167-174, a chain of `||` that stops at the first
failing `Next`: whether all four succeeded, and the calls made. -/
def pollOutputs (env : Env) (i : Nat) : Bool × List Event :=
  if !env.next .video i then (false, [.pollNext .video i false])
  else if !env.next .corpusMask i then
    (false, [.pollNext .video i true, .pollNext .corpusMask i false])
  else if !env.next .faceMask i then
    (false, [.pollNext .video i true, .pollNext .corpusMask i true,
      .pollNext .faceMask i false])
  else if !env.next .selfieMask i then
    (false, [.pollNext .video i true, .pollNext .corpusMask i true,
      .pollNext .faceMask i true, .pollNext .selfieMask i false])
  else
    (true, [.pollNext .video i true, .pollNext .corpusMask i true,
      .pollNext .faceMask i true, .pollNext .selfieMask i true])

/-- The frame that is written or shown, lines 176-205: the video converted back to BGR
plus the inpainting mask; `none` when the flood fill raises an error. -/
def composeFrame (o : Outputs) : Option (Mat Vec3b) :=
  let output_video_mat : Mat Vec3b := Mat.map swapRB ⟨o.rows, o.cols, o.video⟩
  let output_corpus_mask_mat : Mat Vec3b := ⟨o.rows, o.cols, o.corpus_mask⟩
  match prepareFaceMask ⟨o.rows, o.cols, o.face_mask⟩ with
  | none => none
  | some output_face_mask_mat =>
    let output_selfie_mask_mat : Mat Vec3b :=
      Mat.map prepareSelfiePixel ⟨o.rows, o.cols, o.selfie_mask⟩
    let inpainting_mask :=
      Mat.zipWith (Vec3b.zipWith subtract)
        (Mat.zipWith (Vec3b.zipWith bitwise_and) output_selfie_mask_mat output_corpus_mask_mat)
        output_face_mask_mat
    some (Mat.zipWith (Vec3b.zipWith add) output_video_mat inpainting_mask)

/-- The frame that is submitted to the graph, lines 144-156: the capture converted from
BGR to RGB and, for a camera, mirrored horizontally. -/
def inputFrame (load_video : Bool) (camera_frame_raw : Mat Vec3b) : Mat Vec3b :=
  let camera_frame := Mat.map swapRB camera_frame_raw
  if !load_video then flipHorizontal camera_frame else camera_frame

/-- The body of `while (grab_frames)`, lines 130-235. -/
def loopBody (env : Env) (s : LoopState) : Flow :=
  let i := s.iter
  let camera_frame_raw := env.capture i
  let t1 := s.trace ++ [Event.captureRead i camera_frame_raw.empty]
  if camera_frame_raw.empty then
    if !env.load_video then .next { s with iter := i + 1, trace := t1 }
    else .brk { s with iter := i + 1, trace := t1 }
  else
    let camera_frame := inputFrame env.load_video camera_frame_raw
    let t2 := t1 ++ [Event.addPacket camera_frame (env.timestamp i) (env.addPacket i)]
    match env.addPacket i with
    | .error c => .ret (.returned (.error c)) t2
    | .ok =>
      let polled := pollOutputs env i
      let t3 := t2 ++ polled.2
      if !polled.1 then .brk { s with iter := i + 1, trace := t3 }
      else
        match composeFrame (env.outputs i) with
        | none => .ret .aborted t3
        | some output_video_mat =>
          if env.save_video then
            let opened := if !s.writer_open then env.writerOpened else true
            let t4 := if !s.writer_open then t3 ++ [Event.writerOpen env.writerOpened] else t3
            if !opened then .ret (.returned (.error kInternal)) t4
            else
              let frame_count := s.frame_count + 1
              .next { iter := i + 1,
                      grab_frames := if frame_count > 99 then false else s.grab_frames,
                      frame_count := frame_count,
                      writer_open := true,
                      trace := t4 ++ [Event.write output_video_mat] }
          else
            let pressed_key := env.waitKey i
            .next { s with
                    iter := i + 1,
                    grab_frames :=
                      if pressed_key ≥ 0 ∧ pressed_key ≠ 255 then false else s.grab_frames,
                    trace := t3 ++ [Event.imshow output_video_mat, Event.waitKey pressed_key] }

/-- How the loop ends: its condition fails or it breaks, or the function returns
(or the process dies) inside it. -/
inductive LoopEnd where
  | done (s : LoopState)
  | ret (e : Exit) (trace : List Event)

/-- The loop `while (grab_frames) { ... }` of lines 129-235, with fuel: `none` when the
loop is still running after `fuel` iterations. -/
def frameLoop (env : Env) : Nat → LoopState → Option LoopEnd
  | 0, s => if s.grab_frames then none else some (.done s)
  | fuel + 1, s =>
    if s.grab_frames then
      match loopBody env s with
      | .next s1 => frameLoop env fuel s1
      | .brk s1 => some (.done s1)
      | .ret e t => some (.ret e t)
    else some (.done s)

/-- The shutdown of lines 237-241: release the writer if open, close the input stream,
wait for the graph. -/
def shutdown (env : Env) (s : LoopState) : Exit × List Event :=
  let t1 := if s.writer_open then s.trace ++ [Event.writerRelease] else s.trace
  let t2 := t1 ++ [Event.closeInputStream env.closeInputStream]
  match env.closeInputStream with
  | .error c => (.returned (.error c), t2)
  | .ok => (.returned env.waitUntilDone, t2 ++ [Event.waitUntilDone env.waitUntilDone])

/-- The start-up of lines 73-124: the trace when the loop is reached, or how the
function ends before it. The `capture.set` calls of lines 106-108 are compiled in for
some OpenCV versions only and answer nothing the driver reads; they and the `LOG`
lines leave no event. -/
def startup (env : Env) : Except (Exit × List Event) (List Event) :=
  let t1 := [Event.getContents env.getContents]
  match env.getContents with
  | .error c => .error (.returned (.error c), t1)
  | .ok =>
    let t2 := t1 ++ [Event.parseConfig env.parseConfig]
    if !env.parseConfig then .error (.aborted, t2)
    else
      let t3 := t2 ++ [Event.graphInit env.graphInit]
      match env.graphInit with
      | .error c => .error (.returned (.error c), t3)
      | .ok =>
        let t4 := t3 ++ [Event.captureOpen env.load_video env.captureOpened]
        if !env.captureOpened then .error (.returned (.error kInternal), t4)
        else
          let t5 := if !env.save_video then t4 ++ [Event.namedWindow] else t4
          let t6 := t5 ++ [Event.addPoller .video (env.addPoller .video)]
          match env.addPoller .video with
          | .error c => .error (.returned (.error c), t6)
          | .ok =>
            let t7 := t6 ++ [Event.addPoller .corpusMask (env.addPoller .corpusMask)]
            match env.addPoller .corpusMask with
            | .error c => .error (.returned (.error c), t7)
            | .ok =>
              let t8 := t7 ++ [Event.addPoller .faceMask (env.addPoller .faceMask)]
              match env.addPoller .faceMask with
              | .error c => .error (.returned (.error c), t8)
              | .ok =>
                let t9 := t8 ++ [Event.addPoller .selfieMask (env.addPoller .selfieMask)]
                match env.addPoller .selfieMask with
                | .error c => .error (.returned (.error c), t9)
                | .ok =>
                  let t10 := t9 ++ [Event.startRun env.startRun]
                  match env.startRun with
                  | .error c => .error (.returned (.error c), t10)
                  | .ok => .ok t10

/-- The function `RunMPPGraph` (lines 71-242): how it ends and the calls it made;
`none` when the frame loop is still running after `fuel` iterations. -/
def RunMPPGraph (env : Env) (fuel : Nat) : Option (Exit × List Event) :=
  match startup env with
  | .error r => some r
  | .ok t =>
    match frameLoop env fuel (loopStart t) with
    | none => none
    | some (.ret e t1) => some (e, t1)
    | some (.done s) => some (shutdown env s)

/-- The value `EXIT_SUCCESS` of `<cstdlib>`. -/
def EXIT_SUCCESS : Int := 0

/-- The value `EXIT_FAILURE` of `<cstdlib>`. -/
def EXIT_FAILURE : Int := 1

/-- How the process ends: `main` returns an exit code, or the process was killed. -/
inductive ProcessEnd where
  | exited (code : Int)
  | killed
  deriving DecidableEq, Repr

/-- The function `main` (lines 244-259). -/
def main (env : Env) (fuel : Nat) : Option ProcessEnd :=
  match RunMPPGraph env fuel with
  | none => none
  | some (.aborted, _) => some .killed
  | some (.returned run_status, _) =>
    if run_status ≠ Status.ok then some (.exited EXIT_FAILURE)
    else some (.exited EXIT_SUCCESS)

/-! ## Observations on a trace -/

/-- The frames handed to `writer.write`, oldest first. -/
def writtenFrames : List Event → List (Mat Vec3b)
  | [] => []
  | .write f :: t => f :: writtenFrames t
  | _ :: t => writtenFrames t

/-- The frames handed to `cv::imshow`, oldest first. -/
def shownFrames : List Event → List (Mat Vec3b)
  | [] => []
  | .imshow f :: t => f :: shownFrames t
  | _ :: t => shownFrames t

/-- The number of frames read from the capture source. -/
def captureCount : List Event → Nat
  | [] => 0
  | .captureRead _ _ :: t => captureCount t + 1
  | _ :: t => captureCount t

/-- The number of frames submitted to the graph. -/
def submitCount : List Event → Nat
  | [] => 0
  | .addPacket _ _ _ :: t => submitCount t + 1
  | _ :: t => submitCount t

/-- A fallible call that reported failure: reading the configuration file,
initialising the graph, opening the capture source, adding a poller, starting the run,
submitting a frame, opening the writer, closing the input stream, waiting for the
graph. -/
def Event.failed : Event → Bool
  | .getContents (.error _) => true
  | .graphInit (.error _) => true
  | .captureOpen _ false => true
  | .addPoller _ (.error _) => true
  | .startRun (.error _) => true
  | .addPacket _ _ (.error _) => true
  | .writerOpen false => true
  | .closeInputStream (.error _) => true
  | .waitUntilDone (.error _) => true
  | _ => false

/-- The streams polled, oldest first. -/
def polledStreams : List Event → List Stream
  | [] => []
  | .pollNext st _ _ :: t => st :: polledStreams t
  | _ :: t => polledStreams t

/-- No fallible call in the trace reported failure. -/
def noFailure (t : List Event) : Bool := t.all (fun ev => !ev.failed)

/-- The way `RunMPPGraph` ended agrees with its trace: it returned an error exactly
when a fallible call reported failure, and the process died only without one. -/
def outcomeAgrees (e : Exit) (t : List Event) : Prop :=
  match e with
  | .returned .ok => noFailure t = true
  | .returned (.error _) => noFailure t = false
  | .aborted => noFailure t = true

/-- Every call of the start-up succeeded (and the configuration was accepted), so the
loop is reached. -/
def startupOk (env : Env) : Prop :=
  env.getContents = .ok ∧ env.parseConfig = true ∧ env.graphInit = .ok ∧
  env.captureOpened = true ∧ (∀ st, env.addPoller st = .ok) ∧ env.startRun = .ok

/-- The function `RunMPPGraph` returns the error status with code `c`, and `main`
returns `EXIT_FAILURE`. -/
def returnsError (env : Env) (fuel : Nat) (c : Nat) : Prop :=
  ∃ tr, RunMPPGraph env fuel = some (.returned (.error c), tr) ∧
    main env fuel = some (.exited EXIT_FAILURE)

/-! ## Sample environments -/

/-- A frame of 2 rows and 2 columns. -/
def solidFrame : Mat Vec3b := ⟨2, 2, fun _ _ => ⟨10, 20, 30⟩⟩

/-- An empty capture. -/
def emptyFrame : Mat Vec3b := ⟨0, 0, fun _ _ => black⟩

/-- The outputs of the graph for one frame, 2 rows and 2 columns. -/
def sampleOutputs : Outputs :=
  { rows := 2, cols := 2, rows_pos := by decide, cols_pos := by decide,
    video := fun _ _ => ⟨1, 2, 3⟩, corpus_mask := fun _ _ => white,
    face_mask := fun _ _ => black, selfie_mask := fun _ _ => 1 }

/-- A video file of `n` frames processed by a graph in which every call succeeds, in
recording mode. -/
def fileEnv (n : Nat) : Env :=
  { load_video := true, save_video := true, getContents := .ok, parseConfig := true,
    graphInit := .ok, captureOpened := true, addPoller := fun _ => .ok, startRun := .ok,
    capture := fun i => if i < n then solidFrame else emptyFrame,
    timestamp := fun i => 1000 * i, addPacket := fun _ => .ok, next := fun _ _ => true,
    outputs := fun _ => sampleOutputs, writerOpened := true, waitKey := fun _ => -1,
    closeInputStream := .ok, waitUntilDone := .ok }

/-- The environment `fileEnv 10` with a video writer that fails to open. -/
def noWriterEnv : Env := { fileEnv 10 with writerOpened := false }

/-- A camera shown in a window: the first capture is empty, the later ones are not, and
the key poll answers `key`. -/
def cameraEnv (key : Int) : Env :=
  { fileEnv 0 with
    load_video := false, save_video := false,
    capture := fun i => if i = 0 then emptyFrame else solidFrame,
    waitKey := fun _ => key }

/-- The environment `fileEnv 10` with a configuration file that cannot be read. -/
def badConfigEnv : Env := { fileEnv 10 with getContents := .error 5 }

/-- The environment `fileEnv 10` with a graph that refuses the third frame. -/
def submitFailEnv : Env :=
  { fileEnv 10 with addPacket := fun i => if i = 2 then .error 9 else .ok }

/-- The environment `fileEnv 10` with a face-mask poller that fails in iteration 3. -/
def pollFailEnv : Env :=
  { fileEnv 10 with next := fun st i => !(st = Stream.faceMask && i = 3) }

/-! ## Element arithmetic -/

theorem saturate_cast_uchar_le (v : Int) : saturate_cast_uchar v ≤ 255 := by
  unfold saturate_cast_uchar
  split_ifs <;> omega

theorem saturate_cast_uchar_eq (v : Int) (h0 : 0 ≤ v) (h1 : v ≤ 255) :
    (saturate_cast_uchar v : Int) = v := by
  unfold saturate_cast_uchar
  split_ifs <;> omega

theorem subtract_eq (a b : Nat) (ha : a < 256) : subtract a b = a - b := by
  unfold subtract saturate_cast_uchar
  split_ifs <;> omega

theorem add_eq (a b : Nat) : add a b = min 255 (a + b) := by
  unfold add saturate_cast_uchar
  split_ifs <;> omega

theorem bitwise_and_le (a b : Nat) : bitwise_and a b ≤ a := Nat.and_le_left

/-- The rounding of `cvRound` is to a nearest integer. -/
theorem cvRound_near (x : ℚ) : |(cvRound x : ℚ) - x| ≤ 1 / 2 := by
  have hf : ((⌊x⌋ : Int) : ℚ) ≤ x := Int.floor_le x
  have hc : x < (⌊x⌋ : Int) + 1 := Int.lt_floor_add_one x
  rw [abs_le]
  unfold cvRound
  split_ifs with h1 h2 h3
  · constructor <;> linarith
  · push_cast
    constructor <;> linarith
  · constructor <;> linarith
  · push_cast
    constructor <;> linarith

/-- An integer strictly within one half of `x` is what `cvRound` returns. -/
theorem cvRound_eq_of_near (x : ℚ) (k : Int) (h1 : (k : ℚ) - 1 / 2 < x)
    (h2 : x < (k : ℚ) + 1 / 2) : cvRound x = k := by
  have hn := cvRound_near x
  rw [abs_le] at hn
  have hlt : ((cvRound x : Int) : ℚ) < (k : ℚ) + 1 := by linarith [hn.2]
  have hgt : (k : ℚ) - 1 < ((cvRound x : Int) : ℚ) := by linarith [hn.1]
  have a : cvRound x < k + 1 := by exact_mod_cast hlt
  have b : k - 1 < cvRound x := by exact_mod_cast hgt
  omega

/-- The intensity of a probability in `[0, 1]` is the rounded product, not clamped. -/
theorem selfieIntensity_cast (p : ℚ) (h0 : 0 ≤ p) (h1 : p ≤ 1) :
    (selfieIntensity p : Int) = cvRound (p * 255) := by
  have hn := cvRound_near (p * 255)
  rw [abs_le] at hn
  have hlt : ((cvRound (p * 255) : Int) : ℚ) < ((256 : Int) : ℚ) := by
    push_cast
    linarith [hn.2]
  have hgt : (((-1 : Int)) : ℚ) < ((cvRound (p * 255) : Int) : ℚ) := by
    push_cast
    linarith [hn.1]
  have a : cvRound (p * 255) < 256 := by exact_mod_cast hlt
  have b : -1 < cvRound (p * 255) := by exact_mod_cast hgt
  unfold selfieIntensity convertTo_8U
  exact saturate_cast_uchar_eq _ (by omega) (by omega)

theorem selfieIntensity_eq_of_near (p : ℚ) (k : Nat) (h0 : 0 ≤ p) (h1 : p ≤ 1)
    (hlo : (k : ℚ) - 1 / 2 < p * 255) (hhi : p * 255 < (k : ℚ) + 1 / 2) :
    selfieIntensity p = k := by
  have h := selfieIntensity_cast p h0 h1
  rw [cvRound_eq_of_near (p * 255) (k : Int) (by exact_mod_cast hlo) (by exact_mod_cast hhi)] at h
  exact_mod_cast h

theorem prepareSelfiePixel_eq (p : ℚ) :
    prepareSelfiePixel p = if 192 < selfieIntensity p then white else black := by
  unfold prepareSelfiePixel gray2rgb Vec3b.map threshold_binary white black
  split_ifs <;> rfl

/-- Claim C3. For a probability `p` in `[0, 1]` taken as an exact rational, the 8-bit
intensity `i` of the selfie mask is a nearest integer to `255 * p` and lies in `0..255`,
it is broadcast to three equal channels, and each channel of the prepared mask is 255 if
`i > 192` and 0 otherwise. Probability 0 gives intensity 0 and output 0, probability 1
gives 255 and 255, probability 3/4 gives 191 and 0, and an intensity of exactly 192
(reached at `p = 192/255`) gives output 0. -/
theorem selfie_mask_threshold (p : ℚ) (h0 : 0 ≤ p) (h1 : p ≤ 1) :
    |((selfieIntensity p : Nat) : ℚ) - 255 * p| ≤ 1 / 2 ∧
    selfieIntensity p ≤ 255 ∧
    gray2rgb (selfieIntensity p) = ⟨selfieIntensity p, selfieIntensity p, selfieIntensity p⟩ ∧
    prepareSelfiePixel p =
      ⟨if 192 < selfieIntensity p then 255 else 0, if 192 < selfieIntensity p then 255 else 0,
        if 192 < selfieIntensity p then 255 else 0⟩ ∧
    (selfieIntensity 0 = 0 ∧ prepareSelfiePixel 0 = ⟨0, 0, 0⟩) ∧
    (selfieIntensity 1 = 255 ∧ prepareSelfiePixel 1 = ⟨255, 255, 255⟩) ∧
    (selfieIntensity (3 / 4) = 191 ∧ prepareSelfiePixel (3 / 4) = ⟨0, 0, 0⟩) ∧
    (selfieIntensity (192 / 255) = 192 ∧ prepareSelfiePixel (192 / 255) = ⟨0, 0, 0⟩) ∧
    (selfieIntensity p = 192 → prepareSelfiePixel p = ⟨0, 0, 0⟩) := by
  have e0 : selfieIntensity 0 = 0 :=
    selfieIntensity_eq_of_near 0 0 (by norm_num) (by norm_num) (by norm_num) (by norm_num)
  have e1 : selfieIntensity 1 = 255 :=
    selfieIntensity_eq_of_near 1 255 (by norm_num) (by norm_num) (by norm_num) (by norm_num)
  have e2 : selfieIntensity (3 / 4) = 191 :=
    selfieIntensity_eq_of_near (3 / 4) 191 (by norm_num) (by norm_num) (by norm_num)
      (by norm_num)
  have e3 : selfieIntensity (192 / 255) = 192 :=
    selfieIntensity_eq_of_near (192 / 255) 192 (by norm_num) (by norm_num) (by norm_num)
      (by norm_num)
  refine ⟨?_, ?_, rfl, ?_, ⟨e0, ?_⟩, ⟨e1, ?_⟩, ⟨e2, ?_⟩, ⟨e3, ?_⟩, ?_⟩
  · have h := selfieIntensity_cast p h0 h1
    have hq : ((selfieIntensity p : Nat) : ℚ) = ((cvRound (p * 255) : Int) : ℚ) := by
      exact_mod_cast congrArg (fun z : Int => (z : ℚ)) h
    rw [hq, mul_comm 255 p]
    exact cvRound_near (p * 255)
  · exact saturate_cast_uchar_le _
  · rw [prepareSelfiePixel_eq]
    unfold white black
    split_ifs <;> rfl
  · rw [prepareSelfiePixel_eq, e0]
    rfl
  · rw [prepareSelfiePixel_eq, e1]
    rfl
  · rw [prepareSelfiePixel_eq, e2]
    rfl
  · rw [prepareSelfiePixel_eq, e3]
    rfl
  · intro h
    rw [prepareSelfiePixel_eq, h]
    rfl

theorem selfie_mask_threshold_witness :
    (0 : ℚ) ≤ 3 / 4 ∧ (3 / 4 : ℚ) ≤ 1 ∧ selfieIntensity (3 / 4) = 191 :=
  ⟨by norm_num, by norm_num,
    (selfie_mask_threshold (3 / 4) (by norm_num) (by norm_num)).2.2.2.2.2.2.1.1⟩

/-- Claim C4. For 8-bit values `s` (prepared selfie mask), `c` (corpus mask) and `f`
(prepared face mask), a channel of the inpainting mask equals `max(0, (s AND c) - f)`
with a bitwise AND; it lies in `0..255`, and when `f > (s AND c)` it is 0, not the
difference reduced modulo 256. -/
theorem inpainting_channel_saturates (s c f : Nat) (hs : s < 256) (hc : c < 256)
    (hf : f < 256) :
    (inpaintingChannel s c f : Int) = max 0 (((s &&& c : Nat) : Int) - (f : Int)) ∧
    inpaintingChannel s c f ≤ 255 ∧
    (s &&& c < f → inpaintingChannel s c f = 0 ∧
      (inpaintingChannel s c f : Int) ≠ (((s &&& c : Nat) : Int) - (f : Int)) % 256) := by
  have hand : s &&& c ≤ s := Nat.and_le_left
  have he : inpaintingChannel s c f = (s &&& c) - f := by
    unfold inpaintingChannel bitwise_and
    exact subtract_eq _ _ (by omega)
  refine ⟨?_, ?_, ?_⟩
  · rw [he]
    omega
  · rw [he]
    omega
  · intro hlt
    rw [he]
    omega

theorem inpainting_channel_saturates_witness :
    (255 : Nat) < 256 ∧ (15 : Nat) < 256 ∧ (200 : Nat) < 256 ∧ inpaintingChannel 255 15 200 = 0 :=
  ⟨by decide, by decide, by decide,
    ((inpainting_channel_saturates 255 15 200 (by decide) (by decide) (by decide)).2.2
      (by decide)).1⟩

/-- Claim C10. For 8-bit values `v` (composited video frame) and `m` (inpainting mask),
a channel of the overlay equals `min(255, v + m)`: it lies in `0..255`, it is at least
`v`, it equals `v` where `m = 0`, and when `v + m` exceeds 255 it is 255, not the sum
reduced modulo 256. -/
theorem overlay_channel_saturates (v m : Nat) (hv : v < 256) (hm : m < 256) :
    overlayChannel v m = min 255 (v + m) ∧
    overlayChannel v m ≤ 255 ∧
    v ≤ overlayChannel v m ∧
    (m = 0 → overlayChannel v m = v) ∧
    (255 < v + m → overlayChannel v m = 255 ∧ overlayChannel v m ≠ (v + m) % 256) := by
  have he : overlayChannel v m = min 255 (v + m) := add_eq v m
  refine ⟨he, ?_, ?_, ?_, ?_⟩
  · rw [he]
    omega
  · rw [he]
    omega
  · intro h0
    rw [he]
    omega
  · intro hgt
    rw [he]
    omega

theorem overlay_channel_saturates_witness :
    (200 : Nat) < 256 ∧ (100 : Nat) < 256 ∧ overlayChannel 200 100 = 255 :=
  ⟨by decide, by decide,
    ((overlay_channel_saturates 200 100 (by decide) (by decide)).2.2.2.2 (by decide)).1⟩

/-! ## Flood fill -/

theorem mem_points {α : Type} (m : Mat α) (p : Point) :
    p ∈ m.points ↔ p.1 < m.cols ∧ p.2 < m.rows := by
  unfold Mat.points
  rw [Finset.mem_product, Finset.mem_range, Finset.mem_range]

theorem points_card {α : Type} (m : Mat α) : m.points.card = m.cols * m.rows := by
  unfold Mat.points
  rw [Finset.card_product, Finset.card_range, Finset.card_range]

theorem mem_floodGrow (m : Mat Vec3b) (v : Vec3b) (r : Finset Point) (q : Point) :
    q ∈ floodGrow m v r ↔
      q ∈ m.points ∧ (q ∈ r ∨ (m.pixel q = v ∧ ∃ p ∈ r, adjacent4 p q)) := by
  unfold floodGrow
  exact Finset.mem_filter

theorem floodGrow_subset_points (m : Mat Vec3b) (v : Vec3b) (r : Finset Point) :
    floodGrow m v r ⊆ m.points := by
  intro q hq
  exact ((mem_floodGrow m v r q).1 hq).1

theorem subset_floodGrow (m : Mat Vec3b) (v : Vec3b) (r : Finset Point)
    (hr : r ⊆ m.points) : r ⊆ floodGrow m v r := by
  intro q hq
  exact (mem_floodGrow m v r q).2 ⟨hr hq, Or.inl hq⟩

theorem floodRounds_subset_points (m : Mat Vec3b) (seed : Point) (hs : seed ∈ m.points)
    (k : Nat) : floodRounds m seed k ⊆ m.points := by
  cases k with
  | zero =>
    intro q hq
    have : q = seed := by simpa [floodRounds] using hq
    rw [this]
    exact hs
  | succ k => exact floodGrow_subset_points _ _ _

theorem floodRounds_mono (m : Mat Vec3b) (seed : Point) (hs : seed ∈ m.points) (k : Nat) :
    floodRounds m seed k ⊆ floodRounds m seed (k + 1) :=
  subset_floodGrow _ _ _ (floodRounds_subset_points m seed hs k)

/-- Every position the rounds collect is reached from the seed. -/
theorem floodRounds_sound (m : Mat Vec3b) (seed : Point) (k : Nat) :
    ∀ q, q ∈ floodRounds m seed k → Reached m seed q := by
  induction k with
  | zero =>
    intro q hq
    have : q = seed := by simpa [floodRounds] using hq
    rw [this]
    exact Reached.seed
  | succ k ih =>
    intro q hq
    have h := (mem_floodGrow m (m.pixel seed) (floodRounds m seed k) q).1 hq
    rcases h with ⟨hq_in, hold | ⟨hval, p, hp, hadj⟩⟩
    · exact ih q hold
    · exact Reached.step (ih p hp) hadj hq_in hval

/-- Once a round adds nothing, no later round does. -/
theorem floodRounds_stable (m : Mat Vec3b) (seed : Point) (k : Nat)
    (hfix : floodGrow m (m.pixel seed) (floodRounds m seed k) = floodRounds m seed k)
    (j : Nat) : floodRounds m seed (k + j) = floodRounds m seed k := by
  induction j with
  | zero => rfl
  | succ j ih =>
    show floodGrow m (m.pixel seed) (floodRounds m seed (k + j)) = floodRounds m seed k
    rw [ih]
    exact hfix

/-- A round that still adds something has collected more positions than rounds run. -/
theorem floodRounds_card (m : Mat Vec3b) (seed : Point) (hs : seed ∈ m.points) (k : Nat) :
    floodGrow m (m.pixel seed) (floodRounds m seed k) = floodRounds m seed k ∨
      k + 1 ≤ (floodRounds m seed k).card := by
  induction k with
  | zero =>
    right
    simp [floodRounds]
  | succ k ih =>
    rcases ih with hfix | hcard
    · left
      have h1 : floodRounds m seed (k + 1) = floodRounds m seed k := hfix
      rw [h1]
      exact hfix
    · by_cases hfix : floodRounds m seed (k + 1) = floodRounds m seed k
      · left
        rw [hfix]
        exact hfix
      · right
        have hsub : floodRounds m seed k ⊂ floodRounds m seed (k + 1) :=
          Finset.ssubset_iff_subset_ne.2 ⟨floodRounds_mono m seed hs k, fun h => hfix h.symm⟩
        have hlt := Finset.card_lt_card hsub
        omega

/-- After `rows * cols` rounds the region is closed under growth. -/
theorem floodRegion_closed (m : Mat Vec3b) (seed : Point) (hs : seed ∈ m.points) :
    floodGrow m (m.pixel seed) (floodRegion m seed) = floodRegion m seed := by
  rcases floodRounds_card m seed hs (m.rows * m.cols) with hfix | hcard
  · exact hfix
  · exfalso
    have hle := Finset.card_le_card (floodRounds_subset_points m seed hs (m.rows * m.cols))
    rw [points_card, Nat.mul_comm m.cols m.rows] at hle
    omega

theorem seed_mem_floodRegion (m : Mat Vec3b) (seed : Point) (hs : seed ∈ m.points) :
    seed ∈ floodRegion m seed := by
  have h : ∀ k, seed ∈ floodRounds m seed k := by
    intro k
    induction k with
    | zero => simp [floodRounds]
    | succ k ih => exact floodRounds_mono m seed hs k ih
  exact h _

/-- The repainted domain is the set of positions reached from the seed through
4-connected neighbours that hold the seed's value. -/
theorem mem_floodRegion_iff (m : Mat Vec3b) (seed : Point) (hs : seed ∈ m.points)
    (q : Point) : q ∈ floodRegion m seed ↔ Reached m seed q := by
  constructor
  · exact floodRounds_sound m seed _ q
  · intro h
    induction h with
    | seed => exact seed_mem_floodRegion m seed hs
    | step _ hadj hq hval ih =>
      rw [← floodRegion_closed m seed hs]
      exact (mem_floodGrow _ _ _ _).2 ⟨hq, Or.inr ⟨hval, _, ih, hadj⟩⟩

/-- What the prepared face mask holds: black on the flood-filled region, the inverse of
the input elsewhere. -/
theorem prepareFaceMask_spec (m : Mat Vec3b) (hr : 0 < m.rows) (hc : 0 < m.cols) :
    ∃ out, prepareFaceMask m = some out ∧ out.rows = m.rows ∧ out.cols = m.cols ∧
      ∀ y x, (Reached m (0, 0) (x, y) → out.data y x = black) ∧
        (¬ Reached m (0, 0) (x, y) → out.data y x = (m.data y x).map bitwise_not) := by
  have hs : ((0, 0) : Point) ∈ m.points := (mem_points m (0, 0)).2 ⟨hc, hr⟩
  have hcond : ((0, 0) : Point).1 < m.cols ∧ ((0, 0) : Point).2 < m.rows := ⟨hc, hr⟩
  refine ⟨Mat.map (Vec3b.map bitwise_not) ⟨m.rows, m.cols, fun y x =>
    if (x, y) ∈ floodRegion m (0, 0) then white else m.data y x⟩, ?_, rfl, rfl, ?_⟩
  · unfold prepareFaceMask floodFill
    rw [if_pos hcond]
    rfl
  · intro y x
    constructor
    · intro h
      have hin := (mem_floodRegion_iff m (0, 0) hs (x, y)).2 h
      simp only [Mat.map]
      rw [if_pos hin]
      rfl
    · intro h
      have hin : (x, y) ∉ floodRegion m (0, 0) :=
        fun hmem => h ((mem_floodRegion_iff m (0, 0) hs (x, y)).1 hmem)
      simp only [Mat.map]
      rw [if_neg hin]

theorem prepareFaceMask_isSome (m : Mat Vec3b) (hr : 0 < m.rows) (hc : 0 < m.cols) :
    ∃ out, prepareFaceMask m = some out := by
  obtain ⟨out, h, _⟩ := prepareFaceMask_spec m hr hc
  exact ⟨out, h⟩

theorem Reached.pixel_eq {m : Mat Vec3b} {seed q : Point} (h : Reached m seed q) :
    m.pixel q = m.pixel seed := by
  cases h with
  | seed => rfl
  | step _ _ _ hval => exact hval

theorem not_white_eq_black : white ≠ black := by decide

theorem blackWhiteRow_not_reached : ¬ Reached blackWhiteRow (0, 0) (1, 0) := by
  intro h
  have hp := h.pixel_eq
  exact not_white_eq_black hp

/-- Claim C5. Face-mask preparation (flood fill from `(0, 0)` with white, then bitwise
inversion) of a fully white three-channel 8-bit buffer with non-zero width and height
succeeds and yields a buffer of the same size in which every channel of every pixel
is 0. -/
theorem face_mask_of_white_is_black (m : Mat Vec3b) (hr : 0 < m.rows) (hc : 0 < m.cols)
    (hw : ∀ y x, y < m.rows → x < m.cols → m.data y x = white) :
    ∃ out, prepareFaceMask m = some out ∧ out.rows = m.rows ∧ out.cols = m.cols ∧
      ∀ y x, y < m.rows → x < m.cols → out.data y x = ⟨0, 0, 0⟩ := by
  obtain ⟨out, hout, hrows, hcols, hdata⟩ := prepareFaceMask_spec m hr hc
  refine ⟨out, hout, hrows, hcols, ?_⟩
  intro y x hy hx
  by_cases hreach : Reached m (0, 0) (x, y)
  · exact (hdata y x).1 hreach
  · rw [(hdata y x).2 hreach, hw y x hy hx]
    rfl

theorem face_mask_of_white_is_black_witness :
    0 < whiteBuffer.rows ∧ 0 < whiteBuffer.cols ∧
    ∃ out, prepareFaceMask whiteBuffer = some out ∧ out.rows = 2 ∧ out.cols = 3 ∧
      ∀ y x, y < 2 → x < 3 → out.data y x = ⟨0, 0, 0⟩ :=
  ⟨by decide, by decide,
    face_mask_of_white_is_black whiteBuffer (by decide) (by decide) (fun _ _ _ _ => rfl)⟩

/-- Claim C9, as stated, fails on the buffer with one row, black at `(0, 0)` and white
at `(1, 0)`: the white pixel is not reached by the fill, so it lies in the complement of
the flood-filled region, yet the prepared face mask is black there. -/
theorem face_mask_complement_counterexample :
    blackWhiteRow.isBinary ∧ blackWhiteRow.data 0 0 = black ∧
    (1 < blackWhiteRow.cols ∧ 0 < blackWhiteRow.rows) ∧
    ¬ Reached blackWhiteRow (0, 0) (1, 0) ∧
    ∃ out, prepareFaceMask blackWhiteRow = some out ∧ out.data 0 1 = black ∧
      out.data 0 1 ≠ white := by
  refine ⟨?_, rfl, ⟨by decide, by decide⟩, blackWhiteRow_not_reached, ?_⟩
  · intro y x _ _
    by_cases hx : x = 0
    · left
      simp [blackWhiteRow, hx]
    · right
      simp [blackWhiteRow, hx]
  · obtain ⟨out, hout, _, _, hdata⟩ := prepareFaceMask_spec blackWhiteRow (by decide) (by decide)
    have h1 : out.data 0 1 = black := by
      rw [(hdata 0 1).2 blackWhiteRow_not_reached]
      rfl
    refine ⟨out, hout, h1, ?_⟩
    rw [h1]
    exact fun h => not_white_eq_black h.symm

/-- Claim C9, amended. For a three-channel 8-bit face buffer with a pixel `(0, 0)`, whose
pixels are each all-0 or all-255 and whose pixel `(0, 0)` is black, the prepared face
mask is white (255) exactly on the pixels that are black in the input and not reached by
the fill from `(0, 0)` through 4-connected equal-valued neighbours, and black (0)
exactly on the flood-filled region and on the pixels that are white in the input; the
flood-filled region holds black input pixels only. -/
theorem face_mask_binary (m : Mat Vec3b) (hr : 0 < m.rows) (hc : 0 < m.cols)
    (hb : m.isBinary) (h00 : m.data 0 0 = black) :
    ∃ out, prepareFaceMask m = some out ∧ out.rows = m.rows ∧ out.cols = m.cols ∧
      ∀ y x, y < m.rows → x < m.cols →
        (out.data y x = white ↔ (m.data y x = black ∧ ¬ Reached m (0, 0) (x, y))) ∧
        (out.data y x = black ↔ (Reached m (0, 0) (x, y) ∨ m.data y x = white)) ∧
        (Reached m (0, 0) (x, y) → m.data y x = black) := by
  obtain ⟨out, hout, hrows, hcols, hdata⟩ := prepareFaceMask_spec m hr hc
  refine ⟨out, hout, hrows, hcols, ?_⟩
  intro y x hy hx
  have hwb : white ≠ black := not_white_eq_black
  have hinvb : black.map bitwise_not = white := rfl
  have hinvw : white.map bitwise_not = black := rfl
  have hreg : Reached m (0, 0) (x, y) → m.data y x = black := by
    intro h
    have hp : m.pixel (x, y) = m.pixel (0, 0) := h.pixel_eq
    exact hp.trans h00
  by_cases hreach : Reached m (0, 0) (x, y)
  · have ho : out.data y x = black := (hdata y x).1 hreach
    refine ⟨?_, ?_, hreg⟩
    · rw [ho]
      constructor
      · intro h
        exact absurd h.symm hwb
      · intro h
        exact absurd hreach h.2
    · rw [ho]
      exact ⟨fun _ => Or.inl hreach, fun _ => rfl⟩
  · have ho : out.data y x = (m.data y x).map bitwise_not := (hdata y x).2 hreach
    rcases hb y x hy hx with hblack | hwhite
    · rw [hblack, hinvb] at ho
      refine ⟨?_, ?_, hreg⟩
      · rw [ho]
        exact ⟨fun _ => ⟨hblack, hreach⟩, fun _ => rfl⟩
      · rw [ho, hblack]
        constructor
        · intro h
          exact absurd h hwb
        · intro h
          rcases h with h | h
          · exact absurd h hreach
          · exact absurd h.symm hwb
    · rw [hwhite, hinvw] at ho
      refine ⟨?_, ?_, hreg⟩
      · rw [ho, hwhite]
        constructor
        · intro h
          exact absurd h.symm hwb
        · intro h
          exact absurd h.1 hwb
      · rw [ho]
        exact ⟨fun _ => Or.inr hwhite, fun _ => rfl⟩

theorem ringBuffer_isBinary : ringBuffer.isBinary := by
  intro y x _ _
  by_cases h : (y = 1 ∧ x = 1) ∨ (y = 0 ∧ x = 0)
  · left
    simp only [ringBuffer]
    rw [if_pos h]
  · right
    simp only [ringBuffer]
    rw [if_neg h]

theorem face_mask_binary_witness :
    (0 < ringBuffer.rows ∧ 0 < ringBuffer.cols ∧ ringBuffer.isBinary ∧
      ringBuffer.data 0 0 = black) ∧
    ∃ out, prepareFaceMask ringBuffer = some out ∧ out.rows = 3 ∧ out.cols = 3 ∧
      ∀ y x, y < 3 → x < 3 →
        (out.data y x = white ↔
          (ringBuffer.data y x = black ∧ ¬ Reached ringBuffer (0, 0) (x, y))) ∧
        (out.data y x = black ↔
          (Reached ringBuffer (0, 0) (x, y) ∨ ringBuffer.data y x = white)) ∧
        (Reached ringBuffer (0, 0) (x, y) → ringBuffer.data y x = black) :=
  ⟨⟨by decide, by decide, ringBuffer_isBinary, rfl⟩,
    face_mask_binary ringBuffer (by decide) (by decide) ringBuffer_isBinary rfl⟩

/-! ## The frame loop -/

theorem composeFrame_isSome (o : Outputs) : ∃ f, composeFrame o = some f := by
  obtain ⟨face, hface⟩ :=
    prepareFaceMask_isSome ⟨o.rows, o.cols, o.face_mask⟩ o.rows_pos o.cols_pos
  unfold composeFrame
  simp only [hface]
  exact ⟨_, rfl⟩

theorem pollOutputs_fst (env : Env) (i : Nat) :
    (pollOutputs env i).1 = true ↔ ∀ st, env.next st i = true := by
  unfold pollOutputs
  constructor
  · intro h st
    cases h1 : env.next .video i <;> cases h2 : env.next .corpusMask i <;>
      cases h3 : env.next .faceMask i <;> cases h4 : env.next .selfieMask i <;>
      simp [h1, h2, h3, h4] at h
    cases st <;> assumption
  · intro h
    simp [h]

/-- The order of the retrievals and their short circuit. -/
theorem pollOutputs_order (env : Env) (i : Nat) :
    (env.next .video i = false → polledStreams (pollOutputs env i).2 = [.video]) ∧
    (env.next .video i = true → env.next .corpusMask i = false →
      polledStreams (pollOutputs env i).2 = [.video, .corpusMask]) ∧
    (env.next .video i = true → env.next .corpusMask i = true →
      env.next .faceMask i = false →
      polledStreams (pollOutputs env i).2 = [.video, .corpusMask, .faceMask]) ∧
    (env.next .video i = true → env.next .corpusMask i = true →
      env.next .faceMask i = true →
      polledStreams (pollOutputs env i).2 = [.video, .corpusMask, .faceMask, .selfieMask]) := by
  unfold pollOutputs
  refine ⟨?_, ?_, ?_, ?_⟩
  · intro h1
    simp [h1, polledStreams]
  · intro h1 h2
    simp [h1, h2, polledStreams]
  · intro h1 h2 h3
    simp [h1, h2, h3, polledStreams]
  · intro h1 h2 h3
    cases h4 : env.next .selfieMask i <;> simp [h1, h2, h3, h4, polledStreams]

theorem writtenFrames_append (a b : List Event) :
    writtenFrames (a ++ b) = writtenFrames a ++ writtenFrames b := by
  induction a with
  | nil => rfl
  | cons e a ih => cases e <;> simp [writtenFrames, ih]

theorem shownFrames_append (a b : List Event) :
    shownFrames (a ++ b) = shownFrames a ++ shownFrames b := by
  induction a with
  | nil => rfl
  | cons e a ih => cases e <;> simp [shownFrames, ih]

theorem captureCount_append (a b : List Event) :
    captureCount (a ++ b) = captureCount a + captureCount b := by
  induction a with
  | nil => simp [captureCount]
  | cons e a ih => cases e <;> simp [captureCount, ih] <;> omega

theorem submitCount_append (a b : List Event) :
    submitCount (a ++ b) = submitCount a + submitCount b := by
  induction a with
  | nil => simp [submitCount]
  | cons e a ih => cases e <;> simp [submitCount, ih] <;> omega

theorem pollOutputs_silent (env : Env) (i : Nat) :
    writtenFrames (pollOutputs env i).2 = [] ∧ shownFrames (pollOutputs env i).2 = [] ∧
    captureCount (pollOutputs env i).2 = 0 ∧ submitCount (pollOutputs env i).2 = 0 ∧
    noFailure (pollOutputs env i).2 = true := by
  unfold pollOutputs
  cases h1 : env.next .video i <;> cases h2 : env.next .corpusMask i <;>
    cases h3 : env.next .faceMask i <;> cases h4 : env.next .selfieMask i <;>
    simp [writtenFrames, shownFrames, captureCount, submitCount, noFailure, Event.failed]

theorem loopBody_empty_camera (env : Env) (s : LoopState)
    (hempty : (env.capture s.iter).empty = true) (hcam : env.load_video = false) :
    loopBody env s =
      .next { s with iter := s.iter + 1,
                     trace := s.trace ++ [Event.captureRead s.iter true] } := by
  unfold loopBody
  simp [hempty, hcam]

theorem loopBody_empty_file (env : Env) (s : LoopState)
    (hempty : (env.capture s.iter).empty = true) (hfile : env.load_video = true) :
    loopBody env s =
      .brk { s with iter := s.iter + 1,
                    trace := s.trace ++ [Event.captureRead s.iter true] } := by
  unfold loopBody
  simp [hempty, hfile]

theorem loopBody_poll_fail (env : Env) (s : LoopState)
    (hframe : (env.capture s.iter).empty = false) (hadd : env.addPacket s.iter = .ok)
    (hfail : (pollOutputs env s.iter).1 = false) :
    loopBody env s =
      .brk { s with iter := s.iter + 1,
                    trace := s.trace ++ [Event.captureRead s.iter false] ++
                      [Event.addPacket (inputFrame env.load_video (env.capture s.iter))
                        (env.timestamp s.iter) .ok] ++
                      (pollOutputs env s.iter).2 } := by
  unfold loopBody
  simp only [hframe, hadd, hfail]
  rfl

theorem loopBody_show (env : Env) (s : LoopState)
    (hframe : (env.capture s.iter).empty = false) (hadd : env.addPacket s.iter = .ok)
    (hpoll : (pollOutputs env s.iter).1 = true) (hmode : env.save_video = false)
    (f : Mat Vec3b) (hf : composeFrame (env.outputs s.iter) = some f) :
    loopBody env s =
      .next { s with iter := s.iter + 1,
                     grab_frames :=
                       if env.waitKey s.iter ≥ 0 ∧ env.waitKey s.iter ≠ 255 then false
                       else s.grab_frames,
                     trace := s.trace ++ [Event.captureRead s.iter false] ++
                       [Event.addPacket (inputFrame env.load_video (env.capture s.iter))
                        (env.timestamp s.iter) .ok] ++
                       (pollOutputs env s.iter).2 ++
                       [Event.imshow f, Event.waitKey (env.waitKey s.iter)] } := by
  unfold loopBody
  simp only [hframe, hadd, hpoll, hmode, hf]
  rfl

theorem loopBody_write (env : Env) (s : LoopState)
    (hframe : (env.capture s.iter).empty = false) (hadd : env.addPacket s.iter = .ok)
    (hpoll : (pollOutputs env s.iter).1 = true) (hmode : env.save_video = true)
    (hopen : s.writer_open = true ∨ env.writerOpened = true)
    (f : Mat Vec3b) (hf : composeFrame (env.outputs s.iter) = some f) :
    loopBody env s =
      .next { iter := s.iter + 1,
              grab_frames := if s.frame_count + 1 > 99 then false else s.grab_frames,
              frame_count := s.frame_count + 1,
              writer_open := true,
              trace := s.trace ++ [Event.captureRead s.iter false] ++
                [Event.addPacket (inputFrame env.load_video (env.capture s.iter))
                        (env.timestamp s.iter) .ok] ++
                (pollOutputs env s.iter).2 ++
                (if s.writer_open then [] else [Event.writerOpen true]) ++
                [Event.write f] } := by
  unfold loopBody
  simp only [hframe, hadd, hpoll, hmode, hf]
  rcases hopen with h | h
  · simp [h]
  · cases hw : s.writer_open
    · simp [h]
    · simp

theorem loopBody_writer_fails (env : Env) (s : LoopState)
    (hframe : (env.capture s.iter).empty = false) (hadd : env.addPacket s.iter = .ok)
    (hpoll : (pollOutputs env s.iter).1 = true) (hmode : env.save_video = true)
    (hclosed : s.writer_open = false) (hopen : env.writerOpened = false) :
    loopBody env s =
      .ret (.returned (.error kInternal))
        (s.trace ++ [Event.captureRead s.iter false] ++
          [Event.addPacket (inputFrame env.load_video (env.capture s.iter))
                        (env.timestamp s.iter) .ok] ++
          (pollOutputs env s.iter).2 ++ [Event.writerOpen false]) := by
  obtain ⟨f, hf⟩ := composeFrame_isSome (env.outputs s.iter)
  unfold loopBody
  simp only [hframe, hadd, hpoll, hmode, hf, hclosed, hopen]
  rfl

theorem frameLoop_stopped (env : Env) (fuel : Nat) (s : LoopState)
    (h : s.grab_frames = false) : frameLoop env fuel s = some (.done s) := by
  cases fuel <;> simp [frameLoop, h]

theorem frameLoop_next (env : Env) (fuel : Nat) (s s1 : LoopState)
    (h : s.grab_frames = true) (hb : loopBody env s = .next s1) :
    frameLoop env (fuel + 1) s = frameLoop env fuel s1 := by
  simp [frameLoop, h, hb]

theorem frameLoop_brk (env : Env) (fuel : Nat) (s s1 : LoopState)
    (h : s.grab_frames = true) (hb : loopBody env s = .brk s1) :
    frameLoop env (fuel + 1) s = some (.done s1) := by
  simp [frameLoop, h, hb]

theorem frameLoop_ret (env : Env) (fuel : Nat) (s : LoopState) (e : Exit) (t : List Event)
    (h : s.grab_frames = true) (hb : loopBody env s = .ret e t) :
    frameLoop env (fuel + 1) s = some (.ret e t) := by
  simp [frameLoop, h, hb]

theorem RunMPPGraph_of_done (env : Env) (fuel : Nat) (t0 : List Event) (s : LoopState)
    (hs : startup env = .ok t0) (hl : frameLoop env fuel (loopStart t0) = some (.done s)) :
    RunMPPGraph env fuel = some (shutdown env s) := by
  simp [RunMPPGraph, hs, hl]

theorem shutdown_fst (env : Env) (s : LoopState) :
    ((shutdown env s).1 = .returned .ok ↔
      env.closeInputStream = .ok ∧ env.waitUntilDone = .ok) ∧
    (∃ st, (shutdown env s).1 = .returned st) := by
  unfold shutdown
  cases h1 : env.closeInputStream <;> cases h2 : env.waitUntilDone <;> simp

/-- Claim C7. When a capture returns an empty frame: for camera input the iteration is
skipped (nothing is submitted, written or shown, `frame_count` and `grab_frames` are
unchanged) and the loop goes on with the next capture; for file input the loop ends at
once, nothing is submitted for that capture, and the loop ends normally, not with a
returned error. -/
theorem empty_capture_handling (env : Env) (s : LoopState) (hgrab : s.grab_frames = true)
    (hempty : (env.capture s.iter).empty = true) :
    (env.load_video = false →
      ∃ s1, loopBody env s = .next s1 ∧
        s1.trace = s.trace ++ [Event.captureRead s.iter true] ∧
        s1.iter = s.iter + 1 ∧ s1.grab_frames = true ∧ s1.frame_count = s.frame_count ∧
        s1.writer_open = s.writer_open ∧
        submitCount s1.trace = submitCount s.trace ∧
        writtenFrames s1.trace = writtenFrames s.trace ∧
        shownFrames s1.trace = shownFrames s.trace ∧
        ∀ fuel, frameLoop env (fuel + 1) s = frameLoop env fuel s1) ∧
    (env.load_video = true →
      ∃ s1, loopBody env s = .brk s1 ∧
        s1.trace = s.trace ++ [Event.captureRead s.iter true] ∧
        s1.frame_count = s.frame_count ∧
        submitCount s1.trace = submitCount s.trace ∧
        writtenFrames s1.trace = writtenFrames s.trace ∧
        shownFrames s1.trace = shownFrames s.trace ∧
        ∀ fuel, frameLoop env (fuel + 1) s = some (.done s1)) := by
  constructor
  · intro hcam
    have hb := loopBody_empty_camera env s hempty hcam
    refine ⟨_, hb, rfl, rfl, hgrab, rfl, rfl, ?_, ?_, ?_, ?_⟩
    · simp [submitCount_append, submitCount]
    · simp [writtenFrames_append, writtenFrames]
    · simp [shownFrames_append, shownFrames]
    · intro fuel
      exact frameLoop_next env fuel s _ hgrab hb
  · intro hfile
    have hb := loopBody_empty_file env s hempty hfile
    refine ⟨_, hb, rfl, rfl, ?_, ?_, ?_, ?_⟩
    · simp [submitCount_append, submitCount]
    · simp [writtenFrames_append, writtenFrames]
    · simp [shownFrames_append, shownFrames]
    · intro fuel
      exact frameLoop_brk env fuel s _ hgrab hb

theorem empty_capture_handling_witness :
    (loopStart []).grab_frames = true ∧
    ((cameraEnv 255).capture (loopStart []).iter).empty = true ∧
    ∃ s1, loopBody (cameraEnv 255) (loopStart []) = .next s1 ∧
      s1.trace = [Event.captureRead 0 true] :=
  ⟨rfl, rfl,
    match (empty_capture_handling (cameraEnv 255) (loopStart []) rfl rfl).1 rfl with
    | ⟨s1, h1, h2, _⟩ => ⟨s1, h1, h2⟩⟩

/-- Claim C2. In interactive mode, in an iteration that shows a frame and then polls
the key `k`, the loop stops after that iteration if and only if `k >= 0` and `k != 255`:
then no further iteration runs; otherwise (`k = 255`, or `k` negative) `grab_frames`
stays true and the loop goes on with the next iteration. -/
theorem key_press_stops_loop (env : Env) (s : LoopState) (k : Int)
    (hgrab : s.grab_frames = true) (hmode : env.save_video = false)
    (hframe : (env.capture s.iter).empty = false) (hadd : env.addPacket s.iter = .ok)
    (hpoll : ∀ st, env.next st s.iter = true) (hkey : env.waitKey s.iter = k) :
    ∃ f s1, loopBody env s = .next s1 ∧
      s1.trace = s.trace ++ [Event.captureRead s.iter false] ++
        [Event.addPacket (inputFrame env.load_video (env.capture s.iter))
          (env.timestamp s.iter) .ok] ++
        (pollOutputs env s.iter).2 ++ [Event.imshow f, Event.waitKey k] ∧
      (s1.grab_frames = false ↔ (k ≥ 0 ∧ k ≠ 255)) ∧
      ((k ≥ 0 ∧ k ≠ 255) → ∀ fuel, frameLoop env (fuel + 1) s = some (.done s1)) ∧
      (¬ (k ≥ 0 ∧ k ≠ 255) → s1.grab_frames = true ∧
        ∀ fuel, frameLoop env (fuel + 1) s = frameLoop env fuel s1) ∧
      (k = 255 → s1.grab_frames = true) ∧ (k < 0 → s1.grab_frames = true) := by
  obtain ⟨f, hf⟩ := composeFrame_isSome (env.outputs s.iter)
  have hp : (pollOutputs env s.iter).1 = true := (pollOutputs_fst env s.iter).2 hpoll
  have hb := loopBody_show env s hframe hadd hp hmode f hf
  rw [hkey] at hb
  have hg : ∀ c : Prop, [Decidable c] → ((if c then false else s.grab_frames) = false ↔ c) := by
    intro c _
    by_cases hc : c <;> simp [hc, hgrab]
  have hg2 : ∀ c : Prop, [Decidable c] → ¬ c → (if c then false else s.grab_frames) = true := by
    intro c _ hc
    simp [hc, hgrab]
  refine ⟨f, _, hb, rfl, hg _, ?_, ?_, ?_, ?_⟩
  · intro hk fuel
    rw [frameLoop_next env fuel s _ hgrab hb]
    exact frameLoop_stopped env fuel _ ((hg _).2 hk)
  · intro hk
    exact ⟨hg2 _ hk, fun fuel => frameLoop_next env fuel s _ hgrab hb⟩
  · intro hk
    exact hg2 _ (fun h => h.2 hk)
  · intro hk
    exact hg2 _ (fun h => by omega)

theorem key_press_stops_loop_witness :
    (cameraEnv 27).save_video = false ∧
    ((cameraEnv 27).capture 1).empty = false ∧
    ∃ f s1, loopBody (cameraEnv 27) ⟨1, true, 0, false, []⟩ = .next s1 ∧
      shownFrames s1.trace = [f] ∧ s1.grab_frames = false :=
  ⟨rfl, rfl,
    match key_press_stops_loop (cameraEnv 27) ⟨1, true, 0, false, []⟩ 27 rfl rfl rfl rfl
      (fun _ => rfl) rfl with
    | ⟨f, s1, h1, h2, h3, _⟩ =>
      ⟨f, s1, h1, by
        rw [h2]
        simp [shownFrames_append, shownFrames, (pollOutputs_silent _ _).2.1],
        h3.2 (by decide)⟩⟩

/-- Claim C6. The four output streams are polled in the order composited video, corpus
mask, face mask, selfie mask, each only if the ones before it succeeded. If one of the
retrievals fails, the loop ends in that iteration: nothing is written or shown for it,
no error is returned from the loop, and `RunMPPGraph` goes on to the shutdown, which
returns OK unless closing the input stream or waiting for the graph returns an error. -/
theorem retrieval_failure_ends_loop (env : Env) (s : LoopState)
    (hgrab : s.grab_frames = true)
    (hframe : (env.capture s.iter).empty = false) (hadd : env.addPacket s.iter = .ok)
    (hfail : ∃ st, env.next st s.iter = false) :
    ((env.next .video s.iter = false →
        polledStreams (pollOutputs env s.iter).2 = [.video]) ∧
      (env.next .video s.iter = true → env.next .corpusMask s.iter = false →
        polledStreams (pollOutputs env s.iter).2 = [.video, .corpusMask]) ∧
      (env.next .video s.iter = true → env.next .corpusMask s.iter = true →
        env.next .faceMask s.iter = false →
        polledStreams (pollOutputs env s.iter).2 = [.video, .corpusMask, .faceMask]) ∧
      (env.next .video s.iter = true → env.next .corpusMask s.iter = true →
        env.next .faceMask s.iter = true →
        polledStreams (pollOutputs env s.iter).2 =
          [.video, .corpusMask, .faceMask, .selfieMask])) ∧
    ∃ s1, loopBody env s = .brk s1 ∧
      s1.trace = s.trace ++ [Event.captureRead s.iter false] ++
        [Event.addPacket (inputFrame env.load_video (env.capture s.iter))
          (env.timestamp s.iter) .ok] ++
        (pollOutputs env s.iter).2 ∧
      writtenFrames s1.trace = writtenFrames s.trace ∧
      shownFrames s1.trace = shownFrames s.trace ∧
      s1.frame_count = s.frame_count ∧
      (∀ fuel, frameLoop env (fuel + 1) s = some (.done s1)) ∧
      (∀ t0 fuel, startup env = .ok t0 →
        frameLoop env fuel (loopStart t0) = some (.done s1) →
        RunMPPGraph env fuel = some (shutdown env s1)) ∧
      ((shutdown env s1).1 = .returned .ok ↔
        env.closeInputStream = .ok ∧ env.waitUntilDone = .ok) ∧
      (∃ st, (shutdown env s1).1 = .returned st) := by
  have hp : (pollOutputs env s.iter).1 = false := by
    cases h : (pollOutputs env s.iter).1
    · rfl
    · obtain ⟨st, hst⟩ := hfail
      have := (pollOutputs_fst env s.iter).1 h st
      rw [hst] at this
      exact absurd this (by decide)
  have hb := loopBody_poll_fail env s hframe hadd hp
  have hsil := pollOutputs_silent env s.iter
  refine ⟨pollOutputs_order env s.iter, _, hb, rfl, ?_, ?_, rfl, ?_, ?_, (shutdown_fst env _).1,
    (shutdown_fst env _).2⟩
  · simp [writtenFrames_append, writtenFrames, hsil.1]
  · simp [shownFrames_append, shownFrames, hsil.2.1]
  · intro fuel
    exact frameLoop_brk env fuel s _ hgrab hb
  · intro t0 fuel hs hl
    exact RunMPPGraph_of_done env fuel t0 _ hs hl

theorem retrieval_failure_ends_loop_witness :
    (pollFailEnv.capture 3).empty = false ∧ pollFailEnv.next .faceMask 3 = false ∧
    ∃ s1, loopBody pollFailEnv ⟨3, true, 3, true, []⟩ = .brk s1 ∧
      polledStreams (pollOutputs pollFailEnv 3).2 = [.video, .corpusMask, .faceMask] ∧
      writtenFrames s1.trace = [] :=
  ⟨rfl, rfl,
    match retrieval_failure_ends_loop pollFailEnv ⟨3, true, 3, true, []⟩ rfl rfl rfl
      ⟨.faceMask, rfl⟩ with
    | ⟨hord, s1, h1, _, h3, _⟩ => ⟨s1, h1, hord.2.2.1 rfl rfl rfl, h3⟩⟩

theorem loopBody_write_fields (env : Env) (s : LoopState)
    (hframe : (env.capture s.iter).empty = false) (hadd : env.addPacket s.iter = .ok)
    (hpoll : (pollOutputs env s.iter).1 = true) (hmode : env.save_video = true)
    (hopen : s.writer_open = true ∨ env.writerOpened = true) :
    ∃ s1, loopBody env s = .next s1 ∧ s1.iter = s.iter + 1 ∧
      s1.grab_frames = (if s.frame_count + 1 > 99 then false else s.grab_frames) ∧
      s1.frame_count = s.frame_count + 1 ∧
      (writtenFrames s1.trace).length = (writtenFrames s.trace).length + 1 ∧
      captureCount s1.trace = captureCount s.trace + 1 ∧
      submitCount s1.trace = submitCount s.trace + 1 := by
  obtain ⟨f, hf⟩ := composeFrame_isSome (env.outputs s.iter)
  have hb := loopBody_write env s hframe hadd hpoll hmode hopen f hf
  have hsil := pollOutputs_silent env s.iter
  refine ⟨_, hb, rfl, rfl, rfl, ?_, ?_, ?_⟩
  · simp only [writtenFrames_append, List.length_append, hsil.1]
    cases s.writer_open <;> simp [writtenFrames]
  · simp only [captureCount_append, hsil.2.2.1]
    cases s.writer_open <;> simp [captureCount]
  · simp only [submitCount_append, hsil.2.2.2.1]
    cases s.writer_open <;> simp [submitCount]

/-- The recording loop on a file of `n` frames, from iteration `i` on; `m` and `c` are
the numbers of writes and of captures of the whole loop. -/
theorem recording_loop_from (env : Env) (n m c : Nat)
    (hmc : (n < 100 ∧ m = n ∧ c = n + 1) ∨ (100 ≤ n ∧ m = 100 ∧ c = 100))
    (hfile : env.load_video = true) (hrec : env.save_video = true)
    (hframes : ∀ i, i < n → (env.capture i).empty = false)
    (hend : (env.capture n).empty = true)
    (hadd : ∀ i, i < n → env.addPacket i = .ok)
    (hpoll : ∀ i, i < n → ∀ st, env.next st i = true)
    (hwriter : env.writerOpened = true) :
    ∀ (d i fuel : Nat) (s : LoopState), i + d = n → s.iter = i → s.frame_count = i →
      s.grab_frames = true → i < 100 → d + 1 ≤ fuel →
      ∃ s1, frameLoop env fuel s = some (.done s1) ∧
        (writtenFrames s1.trace).length + i = (writtenFrames s.trace).length + m ∧
        s1.frame_count = m ∧
        captureCount s1.trace + i = captureCount s.trace + c ∧
        submitCount s1.trace + i = submitCount s.trace + m ∧
        (n < 100 → s1.grab_frames = true) ∧ (100 ≤ n → s1.grab_frames = false) := by
  intro d
  induction d with
  | zero =>
    intro i fuel s hin hiter hcount hgrab hi hfuel
    obtain ⟨fuel, rfl⟩ : ∃ f, fuel = f + 1 := ⟨fuel - 1, by omega⟩
    have hi_n : i = n := by omega
    have hm : m = i ∧ c = i + 1 := by omega
    have hempty : (env.capture s.iter).empty = true := by
      rw [hiter, hi_n]
      exact hend
    have hb := loopBody_empty_file env s hempty hfile
    refine ⟨_, frameLoop_brk env fuel s _ hgrab hb, ?_, ?_, ?_, ?_, ?_, ?_⟩
    · simp [writtenFrames_append, writtenFrames, hm.1]
    · show s.frame_count = m
      rw [hcount, hm.1]
    · simp [captureCount_append, captureCount, hm.2]
      ring
    · simp [submitCount_append, submitCount, hm.1]
    · intro _
      exact hgrab
    · intro h
      omega
  | succ d ih =>
    intro i fuel s hin hiter hcount hgrab hi hfuel
    obtain ⟨fuel, rfl⟩ : ∃ f, fuel = f + 1 := ⟨fuel - 1, by omega⟩
    have hi_n : i < n := by omega
    have hframe : (env.capture s.iter).empty = false := by
      rw [hiter]
      exact hframes i hi_n
    have hadd1 : env.addPacket s.iter = .ok := by
      rw [hiter]
      exact hadd i hi_n
    have hp : (pollOutputs env s.iter).1 = true := by
      rw [hiter]
      exact (pollOutputs_fst env i).2 (hpoll i hi_n)
    obtain ⟨s2, hb, h_iter, h_grab, h_count, h_w, h_c, h_s⟩ :=
      loopBody_write_fields env s hframe hadd1 hp hrec (Or.inr hwriter)
    rw [frameLoop_next env fuel s s2 hgrab hb]
    by_cases hcap : i + 1 = 100
    · have hstop : s2.grab_frames = false := by
        rw [h_grab, if_pos (by omega)]
      have hn : 100 ≤ n := by omega
      have hm : m = 100 ∧ c = 100 := by omega
      refine ⟨s2, frameLoop_stopped env fuel s2 hstop, ?_, ?_, ?_, ?_, ?_, ?_⟩
      · rw [h_w, hm.1]
        omega
      · rw [h_count, hm.1]
        omega
      · rw [h_c, hm.2]
        omega
      · rw [h_s, hm.1]
        omega
      · intro h
        omega
      · intro _
        exact hstop
    · have hgo : s2.grab_frames = true := by
        rw [h_grab, if_neg (by omega)]
        exact hgrab
      have e1 : i + 1 + d = n := by omega
      have e2 : s2.iter = i + 1 := by rw [h_iter, hiter]
      have e3 : s2.frame_count = i + 1 := by rw [h_count, hcount]
      have e4 : i + 1 < 100 := by omega
      have e5 : d + 1 ≤ fuel := by omega
      obtain ⟨s1, hl, hw, hc, hcap1, hsub, hg1, hg2⟩ := ih (i + 1) fuel s2 e1 e2 e3 hgo e4 e5
      refine ⟨s1, hl, ?_, hc, ?_, ?_, hg1, hg2⟩
      · rw [h_w] at hw
        clear hmc ih hframes hend hadd hpoll hb hl hg1 hg2 hcap1 hsub
        omega
      · rw [h_c] at hcap1
        clear hmc ih hframes hend hadd hpoll hb hl hg1 hg2 hw hsub
        omega
      · rw [h_s] at hsub
        clear hmc ih hframes hend hadd hpoll hb hl hg1 hg2 hw hcap1
        omega

/-- Claim C1, as stated, fails when the video writer does not open: on a file of 10
frames with every submission and retrieval succeeding, the first iteration returns an
internal error from the function and no frame is written. -/
theorem recording_writer_fails_counterexample :
    noWriterEnv.load_video = true ∧ noWriterEnv.save_video = true ∧
    (∀ i, i < 10 → (noWriterEnv.capture i).empty = false) ∧
    (noWriterEnv.capture 10).empty = true ∧
    (∀ i, i < 10 → noWriterEnv.addPacket i = .ok) ∧
    (∀ i, i < 10 → ∀ st, noWriterEnv.next st i = true) ∧
    ∀ fuel, ∃ t, frameLoop noWriterEnv (fuel + 1) (loopStart []) =
        some (.ret (.returned (.error kInternal)) t) ∧
      writtenFrames t = [] := by
  refine ⟨rfl, rfl, ?_, rfl, fun _ _ => rfl, fun _ _ _ => rfl, ?_⟩
  · intro i hi
    show (if i < 10 then solidFrame else emptyFrame).empty = false
    rw [if_pos hi]
    rfl
  · intro fuel
    have hp : (pollOutputs noWriterEnv (loopStart []).iter).1 = true :=
      (pollOutputs_fst noWriterEnv _).2 (fun _ => rfl)
    have hb := loopBody_writer_fails noWriterEnv (loopStart []) rfl rfl hp rfl rfl rfl
    refine ⟨_, frameLoop_ret noWriterEnv fuel (loopStart []) _ _ rfl hb, ?_⟩
    simp [writtenFrames_append, writtenFrames, (pollOutputs_silent noWriterEnv _).1,
      loopStart]

/-- Claim C1, amended. In recording mode with a file input that yields `n` non-empty
frames followed by an empty capture, with every graph submission and every output
retrieval succeeding and the video writer opening, the frame loop ends (given fuel for
`n + 1` iterations) having written exactly `min(n, 100)` frames: for `n < 100` it stops
on the empty capture with `grab_frames` still true, after `n + 1` captures; for
`n >= 100` it stops on the cap with `grab_frames` false, after exactly 100 captures and
100 submissions, so no 101st frame is read. -/
theorem recording_writes_min (env : Env) (n fuel : Nat) (t0 : List Event)
    (hfile : env.load_video = true) (hrec : env.save_video = true)
    (hframes : ∀ i, i < n → (env.capture i).empty = false)
    (hend : (env.capture n).empty = true)
    (hadd : ∀ i, i < n → env.addPacket i = .ok)
    (hpoll : ∀ i, i < n → ∀ st, env.next st i = true)
    (hwriter : env.writerOpened = true)
    (hfuel : n + 1 ≤ fuel) :
    ∃ s, frameLoop env fuel (loopStart t0) = some (.done s) ∧
      (writtenFrames s.trace).length = (writtenFrames t0).length + min n 100 ∧
      s.frame_count = min n 100 ∧
      captureCount s.trace = captureCount t0 + min (n + 1) 100 ∧
      submitCount s.trace = submitCount t0 + min n 100 ∧
      (n < 100 → s.grab_frames = true) ∧ (100 ≤ n → s.grab_frames = false) := by
  have hmc : (n < 100 ∧ min n 100 = n ∧ min (n + 1) 100 = n + 1) ∨
      (100 ≤ n ∧ min n 100 = 100 ∧ min (n + 1) 100 = 100) := by omega
  have h := recording_loop_from env n (min n 100) (min (n + 1) 100) hmc hfile hrec hframes
    hend hadd hpoll hwriter n 0 fuel (loopStart t0) (by omega) rfl rfl rfl (by omega) hfuel
  simpa using h

theorem recording_writes_min_witness :
    (fileEnv 150).load_video = true ∧ (fileEnv 150).save_video = true ∧
    (fileEnv 150).writerOpened = true ∧
    ∃ s, frameLoop (fileEnv 150) 151 (loopStart []) = some (.done s) ∧
      (writtenFrames s.trace).length = 100 ∧ captureCount s.trace = 100 ∧
      s.grab_frames = false :=
  ⟨rfl, rfl, rfl,
    match recording_writes_min (fileEnv 150) 150 151 [] rfl rfl
      (fun i hi => by
        show (if i < 150 then solidFrame else emptyFrame).empty = false
        rw [if_pos hi]
        rfl)
      rfl (fun _ _ => rfl) (fun _ _ _ => rfl) rfl (by decide) with
    | ⟨s, h1, h2, _, h4, _, _, h7⟩ => ⟨s, h1, h2, h4, h7 (by decide)⟩⟩

/-! ## Statuses and the exit code -/

theorem noFailure_append (a b : List Event) :
    noFailure (a ++ b) = (noFailure a && noFailure b) := by
  simp [noFailure, List.all_append]

theorem noFailure_nil : noFailure [] = true := rfl

theorem noFailure_cons (e : Event) (t : List Event) :
    noFailure (e :: t) = (!e.failed && noFailure t) := by
  simp [noFailure]

theorem loopBody_agrees (env : Env) (s : LoopState) (h : noFailure s.trace = true) :
    match loopBody env s with
    | .next s1 => noFailure s1.trace = true
    | .brk s1 => noFailure s1.trace = true
    | .ret e t => outcomeAgrees e t ∧ e ≠ .returned .ok := by
  have hsil := (pollOutputs_silent env s.iter).2.2.2.2
  obtain ⟨f, hf⟩ := composeFrame_isSome (env.outputs s.iter)
  unfold loopBody
  cases hE : (env.capture s.iter).empty
  · cases hA : env.addPacket s.iter
    · cases hP : (pollOutputs env s.iter).1
      · simp [hE, hA, hP, noFailure_append, h, hsil, noFailure_cons, noFailure_nil, Event.failed]
      · cases hS : env.save_video
        · simp [hE, hA, hP, hS, hf, noFailure_append, h, hsil, noFailure_cons, noFailure_nil, Event.failed]
        · cases hW : s.writer_open
          · cases hO : env.writerOpened <;>
              simp [hE, hA, hP, hS, hf, hW, hO, noFailure_append, h, hsil, noFailure_cons,
                noFailure_nil, Event.failed, outcomeAgrees]
          · simp [hE, hA, hP, hS, hf, hW, noFailure_append, h, hsil, noFailure_cons, noFailure_nil, Event.failed]
    · simp [hE, hA, noFailure_append, h, noFailure_cons, noFailure_nil, Event.failed, outcomeAgrees]
  · cases hL : env.load_video <;>
      simp [hE, hL, noFailure_append, h, noFailure_cons, noFailure_nil, Event.failed]

theorem frameLoop_agrees (env : Env) :
    ∀ (fuel : Nat) (s : LoopState) (r : LoopEnd), noFailure s.trace = true →
      frameLoop env fuel s = some r →
      match r with
      | .done s1 => noFailure s1.trace = true
      | .ret e t => outcomeAgrees e t ∧ e ≠ .returned .ok := by
  intro fuel
  induction fuel with
  | zero =>
    intro s r h hl
    cases hg : s.grab_frames
    · rw [frameLoop_stopped env 0 s hg] at hl
      cases hl
      exact h
    · simp [frameLoop, hg] at hl
  | succ fuel ih =>
    intro s r h hl
    cases hg : s.grab_frames
    · rw [frameLoop_stopped env (fuel + 1) s hg] at hl
      cases hl
      exact h
    · have hb := loopBody_agrees env s h
      cases hbody : loopBody env s with
      | next s1 =>
        rw [hbody] at hb
        rw [frameLoop_next env fuel s s1 hg hbody] at hl
        exact ih s1 r hb hl
      | brk s1 =>
        rw [hbody] at hb
        rw [frameLoop_brk env fuel s s1 hg hbody] at hl
        cases hl
        exact hb
      | ret e t =>
        rw [hbody] at hb
        rw [frameLoop_ret env fuel s e t hg hbody] at hl
        cases hl
        exact hb

theorem shutdown_agrees (env : Env) (s : LoopState) (h : noFailure s.trace = true) :
    outcomeAgrees (shutdown env s).1 (shutdown env s).2 ∧ (shutdown env s).1 ≠ .aborted := by
  unfold shutdown
  cases hC : env.closeInputStream <;> cases hW : env.waitUntilDone <;>
    cases hO : s.writer_open <;>
    simp [noFailure_append, h, noFailure_cons, noFailure_nil, Event.failed, outcomeAgrees]

theorem startup_agrees (env : Env) :
    match startup env with
    | .ok t => noFailure t = true
    | .error r => outcomeAgrees r.1 r.2 ∧ r.1 ≠ .returned .ok := by
  unfold startup
  cases h1 : env.getContents
  · cases h2 : env.parseConfig
    · simp [noFailure_append, noFailure_cons, noFailure_nil, Event.failed, outcomeAgrees]
    · cases h3 : env.graphInit
      · cases h4 : env.captureOpened
        · simp [noFailure_append, noFailure_cons, noFailure_nil, Event.failed, outcomeAgrees]
        · cases h5 : env.addPoller .video
          · cases h6 : env.addPoller .corpusMask
            · cases h7 : env.addPoller .faceMask
              · cases h8 : env.addPoller .selfieMask
                · cases h9 : env.startRun <;> cases h10 : env.save_video <;>
                    simp [noFailure_append, noFailure_cons, noFailure_nil, Event.failed, outcomeAgrees]
                · cases h10 : env.save_video <;> simp [noFailure_append, noFailure_cons, noFailure_nil, Event.failed, outcomeAgrees]
              · cases h10 : env.save_video <;> simp [noFailure_append, noFailure_cons, noFailure_nil, Event.failed, outcomeAgrees]
            · cases h10 : env.save_video <;> simp [noFailure_append, noFailure_cons, noFailure_nil, Event.failed, outcomeAgrees]
          · cases h10 : env.save_video <;> simp [noFailure_append, noFailure_cons, noFailure_nil, Event.failed, outcomeAgrees]
      · simp [noFailure_append, noFailure_cons, noFailure_nil, Event.failed, outcomeAgrees]
  · simp [noFailure_append, noFailure_cons, noFailure_nil, Event.failed, outcomeAgrees]

/-- However `RunMPPGraph` ends, its outcome agrees with the failures in its trace; and
it does not die once the loop has ended. -/
theorem RunMPPGraph_agrees (env : Env) (fuel : Nat) (e : Exit) (t : List Event)
    (hrun : RunMPPGraph env fuel = some (e, t)) :
    outcomeAgrees e t ∧
    (∀ t0 s, startup env = .ok t0 → frameLoop env fuel (loopStart t0) = some (.done s) →
      e ≠ .aborted) := by
  have hs := startup_agrees env
  unfold RunMPPGraph at hrun
  cases hst : startup env with
  | error r =>
    rw [hst] at hs hrun
    simp only [Option.some.injEq] at hrun
    rw [hrun] at hs
    exact ⟨hs.1, fun t0 s h0 => by cases h0⟩
  | ok t0 =>
    rw [hst] at hs hrun
    simp only at hs hrun
    cases hl : frameLoop env fuel (loopStart t0) with
    | none =>
      rw [hl] at hrun
      cases hrun
    | some r =>
      have ha := frameLoop_agrees env fuel (loopStart t0) r hs hl
      rw [hl] at hrun
      cases r with
      | done s =>
        simp only [Option.some.injEq] at hrun
        have hsd := shutdown_agrees env s ha
        rw [hrun] at hsd
        exact ⟨hsd.1, fun _ _ _ _ => hsd.2⟩
      | ret e1 t1 =>
        simp only [Option.some.injEq, Prod.mk.injEq] at hrun
        obtain ⟨rfl, rfl⟩ := hrun
        refine ⟨ha.1, fun t0' s h0 hd => ?_⟩
        cases h0
        rw [hl] at hd
        cases hd

theorem noFailure_iff (t : List Event) :
    noFailure t = true ↔ ∀ ev ∈ t, ev.failed = false := by
  simp [noFailure, List.all_eq_true]

theorem main_zero_iff (env : Env) (fuel : Nat) :
    main env fuel = some (.exited 0) ↔ ∃ t, RunMPPGraph env fuel = some (.returned .ok, t) := by
  unfold main
  cases h : RunMPPGraph env fuel with
  | none => simp
  | some r =>
    obtain ⟨e, t⟩ := r
    cases e with
    | aborted => simp
    | returned st => cases st <;> simp [EXIT_SUCCESS, EXIT_FAILURE]

theorem RunMPPGraph_of_startup_error (env : Env) (fuel : Nat) (r : Exit × List Event)
    (h : startup env = .error r) : RunMPPGraph env fuel = some r := by
  simp [RunMPPGraph, h]

theorem RunMPPGraph_of_ret (env : Env) (fuel : Nat) (t0 : List Event) (e : Exit)
    (tr : List Event) (hs : startup env = .ok t0)
    (hl : frameLoop env fuel (loopStart t0) = some (.ret e tr)) :
    RunMPPGraph env fuel = some (e, tr) := by
  simp [RunMPPGraph, hs, hl]

theorem returnsError_of_run (env : Env) (fuel : Nat) (c : Nat) (tr : List Event)
    (h : RunMPPGraph env fuel = some (.returned (.error c), tr)) : returnsError env fuel c :=
  ⟨tr, h, by simp [main, h]⟩

theorem startup_getContents_error (env : Env) (c : Nat) (h1 : env.getContents = .error c) :
    startup env = .error (.returned (.error c), [Event.getContents (.error c)]) := by
  simp [startup, h1]

theorem startup_graphInit_error (env : Env) (c : Nat) (h1 : env.getContents = .ok)
    (h2 : env.parseConfig = true) (h3 : env.graphInit = .error c) :
    ∃ tr, startup env = .error (.returned (.error c), tr) := by
  simp [startup, h1, h2, h3]

theorem startup_capture_closed (env : Env) (h1 : env.getContents = .ok)
    (h2 : env.parseConfig = true) (h3 : env.graphInit = .ok)
    (h4 : env.captureOpened = false) :
    ∃ tr, startup env = .error (.returned (.error kInternal), tr) := by
  simp [startup, h1, h2, h3, h4]

theorem startup_addPoller_error (env : Env) (h1 : env.getContents = .ok)
    (h2 : env.parseConfig = true) (h3 : env.graphInit = .ok)
    (h4 : env.captureOpened = true) (h5 : ∃ st, env.addPoller st ≠ .ok) :
    ∃ c tr, startup env = .error (.returned (.error c), tr) ∧
      ∃ st, env.addPoller st = .error c := by
  cases p1 : env.addPoller .video with
  | error c =>
    refine ⟨c, ?_⟩
    simp [startup, h1, h2, h3, h4, p1]
    exact ⟨.video, p1⟩
  | ok =>
    cases p2 : env.addPoller .corpusMask with
    | error c =>
      refine ⟨c, ?_⟩
      simp [startup, h1, h2, h3, h4, p1, p2]
      exact ⟨.corpusMask, p2⟩
    | ok =>
      cases p3 : env.addPoller .faceMask with
      | error c =>
        refine ⟨c, ?_⟩
        simp [startup, h1, h2, h3, h4, p1, p2, p3]
        exact ⟨.faceMask, p3⟩
      | ok =>
        cases p4 : env.addPoller .selfieMask with
        | error c =>
          refine ⟨c, ?_⟩
          simp [startup, h1, h2, h3, h4, p1, p2, p3, p4]
          exact ⟨.selfieMask, p4⟩
        | ok =>
          exfalso
          obtain ⟨st, hst⟩ := h5
          cases st
          · exact hst p1
          · exact hst p2
          · exact hst p3
          · exact hst p4

theorem startup_startRun_error (env : Env) (c : Nat) (h1 : env.getContents = .ok)
    (h2 : env.parseConfig = true) (h3 : env.graphInit = .ok)
    (h4 : env.captureOpened = true) (h5 : ∀ st, env.addPoller st = .ok)
    (h6 : env.startRun = .error c) :
    ∃ tr, startup env = .error (.returned (.error c), tr) := by
  simp [startup, h1, h2, h3, h4, h5, h6]

theorem startup_of_ok (env : Env) (h : startupOk env) : ∃ t0, startup env = .ok t0 := by
  obtain ⟨h1, h2, h3, h4, h5, h6⟩ := h
  simp [startup, h1, h2, h3, h4, h5, h6]

theorem startupOk_of_ok (env : Env) (t0 : List Event) (h : startup env = .ok t0) :
    startupOk env := by
  unfold startupOk
  cases h1 : env.getContents with
  | error c =>
    rw [startup_getContents_error env c h1] at h
    cases h
  | ok =>
    cases h2 : env.parseConfig with
    | false =>
      simp [startup, h1, h2] at h
    | true =>
      cases h3 : env.graphInit with
      | error c =>
        obtain ⟨tr, htr⟩ := startup_graphInit_error env c h1 h2 h3
        rw [htr] at h
        cases h
      | ok =>
        cases h4 : env.captureOpened with
        | false =>
          obtain ⟨tr, htr⟩ := startup_capture_closed env h1 h2 h3 h4
          rw [htr] at h
          cases h
        | true =>
          by_cases h5 : ∀ st, env.addPoller st = .ok
          · cases h6 : env.startRun with
            | error c =>
              obtain ⟨tr, htr⟩ := startup_startRun_error env c h1 h2 h3 h4 h5 h6
              rw [htr] at h
              cases h
            | ok => exact ⟨rfl, rfl, rfl, rfl, h5, rfl⟩
          · exfalso
            have h5e : ∃ st, env.addPoller st ≠ .ok := by
              by_contra hne
              exact h5 (fun st => by
                by_contra hst
                exact hne ⟨st, hst⟩)
            obtain ⟨c, tr, htr, _⟩ := startup_addPoller_error env h1 h2 h3 h4 h5e
            rw [htr] at h
            cases h

theorem loopBody_addPacket_error (env : Env) (s : LoopState) (c : Nat)
    (hframe : (env.capture s.iter).empty = false)
    (hadd : env.addPacket s.iter = .error c) :
    loopBody env s = .ret (.returned (.error c))
      (s.trace ++ [Event.captureRead s.iter false] ++
        [Event.addPacket (inputFrame env.load_video (env.capture s.iter))
          (env.timestamp s.iter) (.error c)]) := by
  unfold loopBody
  simp only [hframe, hadd]
  rfl

theorem shutdown_cases (env : Env) (s : LoopState) :
    (∀ c, env.closeInputStream = .error c → (shutdown env s).1 = .returned (.error c)) ∧
    (∀ c, env.closeInputStream = .ok → env.waitUntilDone = .error c →
      (shutdown env s).1 = .returned (.error c)) ∧
    (env.closeInputStream = .ok → env.waitUntilDone = .ok →
      (shutdown env s).1 = .returned .ok) := by
  unfold shutdown
  refine ⟨?_, ?_, ?_⟩
  · intro c h
    simp [h]
  · intro c h1 h2
    simp [h1, h2]
  · intro h1 h2
    simp [h1, h2]

/-- A finished run read off its trace: the returned status is an error exactly when a
fallible call in the trace reported failure. -/
theorem outcome_of_trace (env : Env) (fuel : Nat) (e : Exit) (t : List Event)
    (hrun : RunMPPGraph env fuel = some (e, t)) :
    (∀ fuel1, main env fuel1 = some (.exited 0) ↔
      ∃ t1, RunMPPGraph env fuel1 = some (.returned .ok, t1)) ∧
    (main env fuel = some (.exited 0) ↔ e = .returned .ok) ∧
    ((∃ ev ∈ t, ev.failed = true) →
      (∃ c, e = .returned (.error c)) ∧ main env fuel = some (.exited EXIT_FAILURE) ∧
        EXIT_FAILURE ≠ 0) ∧
    ((∀ ev ∈ t, ev.failed = false) →
      (∃ t0 s, startup env = .ok t0 ∧ frameLoop env fuel (loopStart t0) = some (.done s)) →
      e = .returned .ok ∧ main env fuel = some (.exited 0)) ∧
    (∀ t0, startup env = .ok t0 → noFailure t0 = true) ∧
    (∀ s s1, noFailure s.trace = true →
      loopBody env s = .next s1 ∨ loopBody env s = .brk s1 → noFailure s1.trace = true) := by
  obtain ⟨hag, hdone⟩ := RunMPPGraph_agrees env fuel e t hrun
  have hmain : main env fuel = some (.exited 0) ↔ e = .returned .ok := by
    rw [main_zero_iff, hrun]
    constructor
    · rintro ⟨t1, h⟩
      simp only [Option.some.injEq, Prod.mk.injEq] at h
      exact h.1
    · intro h
      exact ⟨t, by rw [h]⟩
  refine ⟨main_zero_iff env, hmain, ?_, ?_, ?_, ?_⟩
  · rintro ⟨ev, hev, hfailed⟩
    have hnf : noFailure t = false := by
      cases hn : noFailure t
      · rfl
      · have := (noFailure_iff t).1 hn ev hev
        rw [hfailed] at this
        cases this
    cases e with
    | aborted =>
      simp [outcomeAgrees, hnf] at hag
    | returned st =>
      cases st with
      | ok => simp [outcomeAgrees, hnf] at hag
      | error c =>
        refine ⟨⟨c, rfl⟩, ?_, by decide⟩
        simp [main, hrun]
  · rintro hall ⟨t0, s, hs, hl⟩
    have hnf : noFailure t = true := (noFailure_iff t).2 hall
    have hna := hdone t0 s hs hl
    cases e with
    | aborted => exact absurd rfl hna
    | returned st =>
      cases st with
      | ok => exact ⟨rfl, hmain.2 rfl⟩
      | error c => simp [outcomeAgrees, hnf] at hag
  · intro t0 h0
    have hs := startup_agrees env
    rw [h0] at hs
    exact hs
  · intro s s1 hs hb
    have ha := loopBody_agrees env s hs
    rcases hb with hb | hb
    · rw [hb] at ha
      exact ha
    · rw [hb] at ha
      exact ha

/-- Claim C8. `main` returns 0 if and only if `RunMPPGraph` returns an OK status.
`RunMPPGraph` returns a non-OK status, and `main` returns `EXIT_FAILURE` (which is not
0), whenever a call that is made reports failure: reading the configuration file,
initialising the graph, opening the capture source, adding an output poller, starting
the run (each for every fuel, the loop is not reached), submitting a frame or opening
the video writer in an iteration of the loop, closing the input stream or waiting for
the graph once the loop has ended. When the start-up succeeds, the loop ends without a
return, and closing the input stream and waiting for the graph succeed, `RunMPPGraph`
returns OK and `main` returns 0. Read off the trace of a finished run: the status is an
error exactly when a fallible call in the trace reported failure. -/
theorem exit_code_reflects_failures (env : Env) :
    (∀ fuel, main env fuel = some (.exited 0) ↔
      ∃ t, RunMPPGraph env fuel = some (.returned .ok, t)) ∧
    EXIT_FAILURE ≠ 0 ∧
    (∀ c, env.getContents = .error c → ∀ fuel, returnsError env fuel c) ∧
    (env.getContents = .ok → env.parseConfig = true →
      ∀ c, env.graphInit = .error c → ∀ fuel, returnsError env fuel c) ∧
    (env.getContents = .ok → env.parseConfig = true → env.graphInit = .ok →
      env.captureOpened = false → ∀ fuel, returnsError env fuel kInternal) ∧
    (env.getContents = .ok → env.parseConfig = true → env.graphInit = .ok →
      env.captureOpened = true → (∃ st, env.addPoller st ≠ .ok) →
      ∀ fuel, ∃ c, returnsError env fuel c ∧ ∃ st, env.addPoller st = .error c) ∧
    (env.getContents = .ok → env.parseConfig = true → env.graphInit = .ok →
      env.captureOpened = true → (∀ st, env.addPoller st = .ok) →
      ∀ c, env.startRun = .error c → ∀ fuel, returnsError env fuel c) ∧
    (startupOk env ↔ ∃ t0, startup env = .ok t0) ∧
    (∀ s c, s.grab_frames = true → (env.capture s.iter).empty = false →
      env.addPacket s.iter = .error c →
      ∀ fuel, ∃ tr, frameLoop env (fuel + 1) s = some (.ret (.returned (.error c)) tr)) ∧
    (∀ s, s.grab_frames = true → (env.capture s.iter).empty = false →
      env.addPacket s.iter = .ok → (∀ st, env.next st s.iter = true) →
      env.save_video = true → s.writer_open = false → env.writerOpened = false →
      ∀ fuel, ∃ tr,
        frameLoop env (fuel + 1) s = some (.ret (.returned (.error kInternal)) tr)) ∧
    (∀ s s1 fuel, s.grab_frames = true → loopBody env s = .next s1 →
      frameLoop env (fuel + 1) s = frameLoop env fuel s1) ∧
    (∀ t0 fuel c tr, startup env = .ok t0 →
      frameLoop env fuel (loopStart t0) = some (.ret (.returned (.error c)) tr) →
      returnsError env fuel c) ∧
    (∀ t0 fuel s c, startup env = .ok t0 →
      frameLoop env fuel (loopStart t0) = some (.done s) →
      env.closeInputStream = .error c → returnsError env fuel c) ∧
    (∀ t0 fuel s c, startup env = .ok t0 →
      frameLoop env fuel (loopStart t0) = some (.done s) →
      env.closeInputStream = .ok → env.waitUntilDone = .error c → returnsError env fuel c) ∧
    (∀ t0 fuel s, startup env = .ok t0 →
      frameLoop env fuel (loopStart t0) = some (.done s) →
      env.closeInputStream = .ok → env.waitUntilDone = .ok →
      (∃ tr, RunMPPGraph env fuel = some (.returned .ok, tr)) ∧
        main env fuel = some (.exited 0)) ∧
    (∀ fuel e t, RunMPPGraph env fuel = some (e, t) →
      (main env fuel = some (.exited 0) ↔ e = .returned .ok) ∧
      ((∃ ev ∈ t, ev.failed = true) →
        (∃ c, e = .returned (.error c)) ∧ main env fuel = some (.exited EXIT_FAILURE)) ∧
      ((∀ ev ∈ t, ev.failed = false) →
        (∃ t0 s, startup env = .ok t0 ∧
          frameLoop env fuel (loopStart t0) = some (.done s)) →
        e = .returned .ok ∧ main env fuel = some (.exited 0))) ∧
    (∀ t0, startup env = .ok t0 → noFailure t0 = true) ∧
    (∀ s s1, noFailure s.trace = true →
      loopBody env s = .next s1 ∨ loopBody env s = .brk s1 → noFailure s1.trace = true) := by
  have hstart : ∀ c tr fuel, startup env = .error (.returned (.error c), tr) →
      returnsError env fuel c := fun c tr fuel h =>
    returnsError_of_run env fuel c tr (RunMPPGraph_of_startup_error env fuel _ h)
  have hshut : ∀ t0 fuel s, startup env = .ok t0 →
      frameLoop env fuel (loopStart t0) = some (.done s) →
      RunMPPGraph env fuel = some ((shutdown env s).1, (shutdown env s).2) :=
    fun t0 fuel s hs hl => RunMPPGraph_of_done env fuel t0 s hs hl
  refine ⟨main_zero_iff env, by decide, ?_, ?_, ?_, ?_, ?_, ?_, ?_, ?_, ?_, ?_, ?_, ?_, ?_,
    ?_, ?_, ?_⟩
  · intro c h fuel
    exact hstart c _ fuel (startup_getContents_error env c h)
  · intro h1 h2 c h3 fuel
    obtain ⟨tr, htr⟩ := startup_graphInit_error env c h1 h2 h3
    exact hstart c tr fuel htr
  · intro h1 h2 h3 h4 fuel
    obtain ⟨tr, htr⟩ := startup_capture_closed env h1 h2 h3 h4
    exact hstart kInternal tr fuel htr
  · intro h1 h2 h3 h4 h5 fuel
    obtain ⟨c, tr, htr, hst⟩ := startup_addPoller_error env h1 h2 h3 h4 h5
    exact ⟨c, hstart c tr fuel htr, hst⟩
  · intro h1 h2 h3 h4 h5 c h6 fuel
    obtain ⟨tr, htr⟩ := startup_startRun_error env c h1 h2 h3 h4 h5 h6
    exact hstart c tr fuel htr
  · exact ⟨startup_of_ok env, fun ⟨t0, h⟩ => startupOk_of_ok env t0 h⟩
  · intro s c hg hframe hadd fuel
    exact ⟨_, frameLoop_ret env fuel s _ _ hg (loopBody_addPacket_error env s c hframe hadd)⟩
  · intro s hg hframe hadd hpoll hmode hclosed hopen fuel
    have hp : (pollOutputs env s.iter).1 = true := (pollOutputs_fst env s.iter).2 hpoll
    exact ⟨_, frameLoop_ret env fuel s _ _ hg
      (loopBody_writer_fails env s hframe hadd hp hmode hclosed hopen)⟩
  · intro s s1 fuel hg hb
    exact frameLoop_next env fuel s s1 hg hb
  · intro t0 fuel c tr hs hl
    exact returnsError_of_run env fuel c tr (RunMPPGraph_of_ret env fuel t0 _ tr hs hl)
  · intro t0 fuel s c hs hl hc
    have hr := hshut t0 fuel s hs hl
    rw [(shutdown_cases env s).1 c hc] at hr
    exact returnsError_of_run env fuel c _ hr
  · intro t0 fuel s c hs hl hc hw
    have hr := hshut t0 fuel s hs hl
    rw [(shutdown_cases env s).2.1 c hc hw] at hr
    exact returnsError_of_run env fuel c _ hr
  · intro t0 fuel s hs hl hc hw
    have hr := hshut t0 fuel s hs hl
    rw [(shutdown_cases env s).2.2 hc hw] at hr
    exact ⟨⟨_, hr⟩, (main_zero_iff env fuel).2 ⟨_, hr⟩⟩
  · intro fuel e t hrun
    have h := outcome_of_trace env fuel e t hrun
    exact ⟨h.2.1, fun hf => ⟨(h.2.2.1 hf).1, (h.2.2.1 hf).2.1⟩, h.2.2.2.1⟩
  · intro t0 h0
    have hs := startup_agrees env
    rw [h0] at hs
    exact hs
  · intro s s1 hs hb
    have ha := loopBody_agrees env s hs
    rcases hb with hb | hb
    · rw [hb] at ha
      exact ha
    · rw [hb] at ha
      exact ha

theorem exit_code_reflects_failures_witness :
    (badConfigEnv.getContents = .error 5 ∧
      ∃ tr, RunMPPGraph badConfigEnv 0 = some (.returned (.error 5), tr) ∧
        main badConfigEnv 0 = some (.exited 1)) ∧
    (submitFailEnv.addPacket 2 = .error 9 ∧
      ∃ tr, frameLoop submitFailEnv 1 ⟨2, true, 2, true, []⟩ =
        some (.ret (.returned (.error 9)) tr)) ∧
    (main (fileEnv 0) 1 = some (.exited 0)) :=
  ⟨⟨rfl, (exit_code_reflects_failures badConfigEnv).2.2.1 5 rfl 0⟩,
    ⟨rfl, (exit_code_reflects_failures submitFailEnv).2.2.2.2.2.2.2.2.1
      ⟨2, true, 2, true, []⟩ 9 rfl rfl rfl 0⟩,
    (exit_code_reflects_failures (fileEnv 0)).1 1 |>.2 ⟨_, rfl⟩⟩

end Inpainting
